import Mathlib

/-!
Shallow embedding of the differential-drive simulator core
(`src/simulator.py`, function `main`) over exact real arithmetic.

The Python source is a single tick loop.  Each tick, in order:
  1. processes the pending event queue (quit / space / escape / `0` /
     `[` / `]` keydowns and bracket keyups),
  2. applies held pan/zoom keys to the camera,
  3. if scrubbing while paused or finished, moves the displayed frame index
     by one step, clamped to the recorded range,
  4. if advancing (not paused, not scrubbing, not finished): activates the
     next movement command when the remaining distance is spent, performs
     one integrator step, checks the finished condition, auto-scrolls the
     camera, and records a frame.

Machine floats are modelled by `ℝ`; the mutable loop-local variables of
`main` become the fields of `SimState`; one iteration of the `while`
loop becomes the function `tick`.
-/

namespace DDSim

set_option autoImplicit false

noncomputable section

/-! ### Configuration constants (module header of `simulator.py`) -/

def WIDTH : ℝ := 1600
def HEIGHT : ℝ := 1200
def SCROLL_BUFFER : ℝ := 100
def PAN_SPEED : ℝ := 5
def ZOOM_STEP : ℝ := 0.05
def ZOOM_MIN : ℝ := 1
def ZOOM_MAX : ℝ := 20

/-! ### Data model -/

/-- Wheel selector of a movement command: the Python strings
`"left"`, `"right"`, `"both"`. -/
inductive Wheel where
  | left
  | right
  | both
deriving DecidableEq, Repr

/-- Direction of a movement command: the Python strings `"forward"`,
`"backward"`. -/
inductive MoveDir where
  | forward
  | backward
deriving DecidableEq, Repr

/-- One movement instruction: the Python tuple
`(direction, wheel_cmd, rotations)`. -/
structure Movement where
  direction : MoveDir
  wheels : Wheel
  rotations : ℝ

/-- The dataclass `RobotParameters`. -/
structure RobotParameters where
  wheel_diameter : ℝ
  robot_width : ℝ
  scale : ℝ
  step_size : ℝ
  axle_offset : ℝ

/-- Property `half_robot_width` of `RobotParameters`. -/
def RobotParameters.half_robot_width (p : RobotParameters) : ℝ :=
  p.robot_width / 2

/-- Property `wheel_circumference` of `RobotParameters`. -/
def RobotParameters.wheel_circumference (p : RobotParameters) : ℝ :=
  Real.pi * p.wheel_diameter

/-- The dataclass `InitialConditions`. -/
structure InitialConditions where
  x : ℝ
  y : ℝ
  heading : ℝ

/-- The dataclass `DisplayOptions`. -/
structure DisplayOptions where
  show_origin : Bool
  show_initial_position : Bool
  show_path : Bool
  show_turns : Bool
  show_heading : Bool
  show_axle : Bool
  show_grid : Bool

/-- One recorded frame: the dict appended by `record_frame`.
`instruction_markers` is stored by value (the Python code copies the
list), so a recorded frame never changes afterwards. -/
structure Frame where
  x : ℝ
  y : ℝ
  heading : ℝ
  axle_x : ℝ
  axle_y : ℝ
  movement_index : ℕ
  remaining_distance : ℝ
  active_wheel_command : Option Wheel
  direction_sign : ℝ
  instruction_markers : List (ℝ × ℝ)

/-- The mutable loop-local state of `main`, one field per Python variable. -/
structure SimState where
  scroll_x : ℝ
  scroll_y : ℝ
  zoom : ℝ
  instruction_markers : List (ℝ × ℝ)
  frames : List Frame
  x : ℝ
  y : ℝ
  heading : ℝ
  axle_x : ℝ
  axle_y : ℝ
  movement_index : ℕ
  remaining_distance : ℝ
  active_wheel_command : Option Wheel
  direction_sign : ℝ
  previous_wheel : Option Wheel
  paused : Bool
  frame_index : ℤ
  sim_frame_index : ℤ
  simulation_finished : Bool
  scrubbing : Bool
  scrubbing_direction : ℤ
  sim_frame_index_before_scrub : ℤ
  path : List (ℝ × ℝ)
  running : Bool

/-- Discrete input events of one tick (`pygame.event.get()`).
`keyBracketUp` covers the keyup of either bracket key, which the source
treats identically. -/
inductive Ev where
  | quit
  | keySpace
  | keyEscape
  | keyZero
  | keyLBracket
  | keyRBracket
  | keyBracketUp
deriving DecidableEq, Repr

/-- Per-tick input: the event queue plus the held pan/zoom keys
(`pygame.key.get_pressed()`).  `zoomIn` stands for the disjunction
`keys[K_EQUALS] or keys[K_PLUS]`, `zoomOut` for
`keys[K_MINUS] or keys[K_UNDERSCORE]`. -/
structure Input where
  events : List Ev
  panLeft : Bool
  panRight : Bool
  panUp : Bool
  panDown : Bool
  zoomIn : Bool
  zoomOut : Bool

/-- A tick with no events and no held keys. -/
def nilInput : Input :=
  ⟨[], false, false, false, false, false, false⟩

/-! ### Event handling (lines 160-211 of `simulator.py`) -/

/-- Handler of the `K_0` keydown: auto-fit the camera to the recorded
frames.  Touches only `zoom`, `scroll_x`, `scroll_y`. -/
def resetView (s : SimState) : SimState :=
  match s.frames with
  | [] => s
  | f :: fs =>
      let xs := (f :: fs).map Frame.x
      let ys := (f :: fs).map Frame.y
      let min_x := xs.foldl min f.x
      let max_x := xs.foldl max f.x
      let min_y := ys.foldl min f.y
      let max_y := ys.foldl max f.y
      let width := max_x - min_x
      let height := max_y - min_y
      let padding := max width height * 0.1
      let width' := width + padding
      let height' := height + padding
      let zoom_x := if width' ≠ 0 then WIDTH / width' else ZOOM_MAX
      let zoom_y := if height' ≠ 0 then HEIGHT / height' else ZOOM_MAX
      let zoom1 := min (min zoom_x zoom_y) ZOOM_MAX
      let zoom2 := max zoom1 ZOOM_MIN
      { s with zoom := zoom2
               scroll_x := (min_x + max_x) / 2
               scroll_y := (min_y + max_y) / 2 }

/-- Handler of one pygame event (the `for event in pygame.event.get()`
body). -/
def processEvent (s : SimState) (e : Ev) : SimState :=
  match e with
  | .quit => { s with running := false }
  | .keyEscape => { s with running := false }
  | .keySpace =>
      if s.paused then
        -- paused = not paused makes it False: resume
        { s with paused := false
                 sim_frame_index := s.sim_frame_index_before_scrub
                 frame_index := s.sim_frame_index_before_scrub
                 scrubbing := false
                 scrubbing_direction := 0 }
      else
        -- paused becomes True: remember the frame index
        { s with paused := true
                 sim_frame_index_before_scrub := s.sim_frame_index }
  | .keyZero => resetView s
  | .keyLBracket =>
      if s.paused = true ∨ s.simulation_finished = true then
        { s with scrubbing := true
                 scrubbing_direction := -1
                 sim_frame_index_before_scrub := s.sim_frame_index }
      else s
  | .keyRBracket =>
      if s.paused = true ∨ s.simulation_finished = true then
        { s with scrubbing := true
                 scrubbing_direction := 1
                 sim_frame_index_before_scrub := s.sim_frame_index }
      else s
  | .keyBracketUp =>
      { s with scrubbing := false, scrubbing_direction := 0 }

/-- Process the whole event queue of one tick. -/
def eventsPhase (i : Input) (s : SimState) : SimState :=
  i.events.foldl processEvent s

/-! ### Pan and zoom (lines 213-227) -/

/-- Held-key pan and zoom controls.  Touches only `scroll_x`, `scroll_y`,
`zoom`. -/
def panPhase (i : Input) (s : SimState) : SimState :=
  let s := if i.panLeft then { s with scroll_x := s.scroll_x - PAN_SPEED / s.zoom } else s
  let s := if i.panRight then { s with scroll_x := s.scroll_x + PAN_SPEED / s.zoom } else s
  let s := if i.panUp then { s with scroll_y := s.scroll_y + PAN_SPEED / s.zoom } else s
  let s := if i.panDown then { s with scroll_y := s.scroll_y - PAN_SPEED / s.zoom } else s
  let s := if i.zoomIn then { s with zoom := min (s.zoom + ZOOM_STEP) ZOOM_MAX } else s
  let s := if i.zoomOut then { s with zoom := max (s.zoom - ZOOM_STEP) ZOOM_MIN } else s
  s

/-! ### Scrub handling (lines 229-234) -/

/-- While scrubbing and paused-or-finished, move the displayed frame
index by `scrubbing_direction * 1` clamped to `[0, len(frames) - 1]`. -/
def scrubPhase (s : SimState) : SimState :=
  if s.scrubbing = true ∧ (s.paused = true ∨ s.simulation_finished = true) then
    let new_frame_index := s.frame_index + s.scrubbing_direction * 1
    { s with frame_index := max 0 (min ((s.frames.length : ℤ) - 1) new_frame_index) }
  else s

/-! ### The simulation block (lines 236-300) -/

/-- Command activation (lines 238-248): convert the movement at
`movement_index` into active-command state and, when `show_turns` is set
and the wheel selector differs from `previous_wheel`, append a turn
marker at the current reference point. -/
def activateWith (p : RobotParameters) (display : DisplayOptions)
    (m : Movement) (s : SimState) : SimState :=
  let dsign : ℝ := if m.direction = .forward then 1 else -1
  let s1 := { s with direction_sign := dsign
                     remaining_distance := m.rotations * p.wheel_circumference
                     active_wheel_command := some m.wheels }
  let s2 :=
    if display.show_turns = true ∧ some m.wheels ≠ s1.previous_wheel then
      { s1 with previous_wheel := some m.wheels
                instruction_markers := s1.instruction_markers ++ [(s1.x, s1.y)] }
    else s1
  { s2 with movement_index := s2.movement_index + 1 }

/-- One integrator step (lines 250-282, the body of
`if remaining_distance > 0`): consume `step = min(step_size, remaining)`,
move straight when both wheels are driven, otherwise rotate the axle
about the point at `axle - half_width*(cos h, -sin h)` and update the
heading by `±theta`. -/
def motionStep (p : RobotParameters) (s : SimState) : SimState :=
  let step := min p.step_size s.remaining_distance
  let s' :=
    if s.active_wheel_command = some Wheel.both then
      let dx := Real.sin s.heading * step * s.direction_sign
      let dy := Real.cos s.heading * step * s.direction_sign
      { s with axle_x := s.axle_x + dx
               axle_y := s.axle_y + dy
               x := s.x + dx
               y := s.y + dy }
    else
      let theta := s.direction_sign * step / p.robot_width
      let pivot_x := s.axle_x - p.half_robot_width * Real.cos s.heading
      let pivot_y := s.axle_y + p.half_robot_width * Real.sin s.heading
      let dx_local := p.half_robot_width * Real.cos s.heading
      let dy_local := -p.half_robot_width * Real.sin s.heading
      let cos_theta := Real.cos theta
      let sin_theta := Real.sin theta
      let x_rel_pivot := dx_local * cos_theta - dy_local * sin_theta
      let y_rel_pivot := dx_local * sin_theta + dy_local * cos_theta
      let axle_x' := pivot_x + x_rel_pivot
      let axle_y' := pivot_y + y_rel_pivot
      let x' := p.axle_offset * Real.sin s.heading + axle_x'
      let y' := p.axle_offset * Real.cos s.heading + axle_y'
      let heading' :=
        if s.active_wheel_command = some Wheel.left then s.heading + theta
        else s.heading - theta
      { s with axle_x := axle_x'
               axle_y := axle_y'
               x := x'
               y := y'
               heading := heading' }
  { s' with remaining_distance := s'.remaining_distance - step
            path := s'.path ++ [(s'.x, s'.y)] }

/-- Camera auto-scroll (lines 287-296): while not finished and no arrow
key is held, keep the robot inside the scroll buffer.  Touches only
`scroll_x`, `scroll_y`. -/
def autoScroll (i : Input) (s : SimState) : SimState :=
  if s.simulation_finished = false ∧
      ¬(i.panLeft = true ∨ i.panRight = true ∨ i.panUp = true ∨ i.panDown = true) then
    let screen_x := WIDTH / 2 + (s.x - s.scroll_x) * s.zoom
    let screen_y := HEIGHT / 2 - (s.y - s.scroll_y) * s.zoom
    let s1 :=
      if screen_x > WIDTH - SCROLL_BUFFER then
        { s with scroll_x := s.scroll_x + (screen_x - (WIDTH - SCROLL_BUFFER)) / s.zoom }
      else if screen_x < SCROLL_BUFFER then
        { s with scroll_x := s.scroll_x - (SCROLL_BUFFER - screen_x) / s.zoom }
      else s
    let s2 :=
      if screen_y > HEIGHT - SCROLL_BUFFER then
        { s1 with scroll_y := s1.scroll_y - (screen_y - (HEIGHT - SCROLL_BUFFER)) / s1.zoom }
      else if screen_y < SCROLL_BUFFER then
        { s1 with scroll_y := s1.scroll_y + (SCROLL_BUFFER - screen_y) / s1.zoom }
      else s1
    s2
  else s

/-- `record_frame()` (lines 138-152): append a full snapshot, with the
marker list copied by value. -/
def recordFrame (s : SimState) : SimState :=
  { s with frames := s.frames ++
      [{ x := s.x
         y := s.y
         heading := s.heading
         axle_x := s.axle_x
         axle_y := s.axle_y
         movement_index := s.movement_index
         remaining_distance := s.remaining_distance
         active_wheel_command := s.active_wheel_command
         direction_sign := s.direction_sign
         instruction_markers := s.instruction_markers }] }

/-- Lines 238-248: when the remaining distance is spent and the queue is
not exhausted, activate the next command (indexing is expressed through
`List.get?`, which is `some` exactly under the source's bound check). -/
def activatePhase (p : RobotParameters) (movements : List Movement)
    (display : DisplayOptions) (s : SimState) : SimState :=
  if s.remaining_distance ≤ 0 then
    match movements.get? s.movement_index with
    | some m => activateWith p display m s
    | none => s
  else s

/-- Lines 250-282: one integrator step whenever distance remains. -/
def stepPhase (p : RobotParameters) (s : SimState) : SimState :=
  if s.remaining_distance > 0 then motionStep p s else s

/-- Lines 284-285: the finished condition. -/
def finishCheck (movements : List Movement) (s : SimState) : SimState :=
  if movements.length ≤ s.movement_index ∧ s.remaining_distance ≤ 0 then
    { s with simulation_finished := true }
  else s

/-- Lines 298-300: record the frame and point both frame indices at it. -/
def recordAndPoint (s : SimState) : SimState :=
  let s5 := recordFrame s
  { s5 with sim_frame_index := (s5.frames.length : ℤ) - 1
            frame_index := (s5.frames.length : ℤ) - 1 }

/-- The simulation block of one tick (lines 236-300), guarded by
`not paused and not scrubbing and not simulation_finished`. -/
def simPhase (p : RobotParameters) (movements : List Movement)
    (display : DisplayOptions) (i : Input) (s : SimState) : SimState :=
  if s.paused = false ∧ s.scrubbing = false ∧ s.simulation_finished = false then
    recordAndPoint (autoScroll i
      (finishCheck movements (stepPhase p (activatePhase p movements display s))))
  else s

/-! ### One tick and whole runs -/

/-- One iteration of the `while running` loop (drawing omitted: it
mutates nothing). -/
def tick (p : RobotParameters) (movements : List Movement)
    (display : DisplayOptions) (i : Input) (s : SimState) : SimState :=
  if s.running then
    simPhase p movements display i (scrubPhase (panPhase i (eventsPhase i s)))
  else s

/-- The state just before the loop (lines 75-153): variable
initialisation, the initial `record_frame()` and `path = [(x, y)]`. -/
def startState (p : RobotParameters) (init : InitialConditions) : SimState :=
  let s : SimState :=
    { scroll_x := init.x
      scroll_y := init.y
      zoom := p.scale
      instruction_markers := []
      frames := []
      x := init.x
      y := init.y
      heading := init.heading
      axle_x := init.x - p.axle_offset * Real.sin init.heading
      axle_y := init.y - p.axle_offset * Real.cos init.heading
      movement_index := 0
      remaining_distance := 0
      active_wheel_command := none
      direction_sign := 1
      previous_wheel := none
      paused := false
      frame_index := 0
      sim_frame_index := 0
      simulation_finished := false
      scrubbing := false
      scrubbing_direction := 0
      sim_frame_index_before_scrub := 0
      path := []
      running := true }
  { recordFrame s with path := [(s.x, s.y)] }

/-- A whole run: fold the tick over a list of per-tick inputs. -/
def run (p : RobotParameters) (init : InitialConditions)
    (movements : List Movement) (display : DisplayOptions)
    (inputs : List Input) : SimState :=
  inputs.foldl (fun s i => tick p movements display i s) (startState p init)

/-! ### Wheel contact points (drawing code, lines 326-330) -/

/-- World position of the left wheel's contact point. -/
def leftWheelPos (p : RobotParameters) (s : SimState) : ℝ × ℝ :=
  (s.axle_x - p.half_robot_width * Real.cos s.heading,
   s.axle_y + p.half_robot_width * Real.sin s.heading)

/-- World position of the right wheel's contact point. -/
def rightWheelPos (p : RobotParameters) (s : SimState) : ℝ × ℝ :=
  (s.axle_x + p.half_robot_width * Real.cos s.heading,
   s.axle_y - p.half_robot_width * Real.sin s.heading)

/-! ### Shape lemmas: which state fields each phase can touch -/

theorem resetView_shape (s : SimState) :
    ∃ a b z, resetView s = { s with scroll_x := a, scroll_y := b, zoom := z } := by
  unfold resetView
  split
  · exact ⟨s.scroll_x, s.scroll_y, s.zoom, rfl⟩
  · exact ⟨_, _, _, rfl⟩

theorem panPhase_shape (i : Input) (s : SimState) :
    ∃ a b z, panPhase i s = { s with scroll_x := a, scroll_y := b, zoom := z } := by
  unfold panPhase
  dsimp only
  split <;> split <;> split <;> split <;> split <;> split <;> exact ⟨_, _, _, rfl⟩

theorem scrubPhase_shape (s : SimState) :
    ∃ a, scrubPhase s = { s with frame_index := a } := by
  unfold scrubPhase
  split
  · exact ⟨_, rfl⟩
  · exact ⟨s.frame_index, rfl⟩

theorem autoScroll_shape (i : Input) (s : SimState) :
    ∃ a b, autoScroll i s = { s with scroll_x := a, scroll_y := b } := by
  unfold autoScroll
  dsimp only
  repeat' split
  all_goals exact ⟨_, _, rfl⟩

theorem motionStep_shape (p : RobotParameters) (s : SimState) :
    ∃ a b c d e r q, motionStep p s =
      { s with x := a, y := b, heading := c, axle_x := d, axle_y := e,
               remaining_distance := r, path := q } := by
  unfold motionStep
  dsimp only
  split
  · exact ⟨_, _, s.heading, _, _, _, _, rfl⟩
  · exact ⟨_, _, _, _, _, _, _, rfl⟩

theorem activateWith_shape (p : RobotParameters) (display : DisplayOptions)
    (m : Movement) (s : SimState) :
    ∃ r a d mk pw mi, activateWith p display m s =
      { s with remaining_distance := r, active_wheel_command := a,
               direction_sign := d, instruction_markers := mk,
               previous_wheel := pw, movement_index := mi } := by
  unfold activateWith
  dsimp only
  split
  · exact ⟨_, _, _, _, _, _, rfl⟩
  · exact ⟨_, _, _, s.instruction_markers, s.previous_wheel, _, rfl⟩

/-! ### Field-preservation lemmas -/

@[simp] theorem resetView_instruction_markers (s : SimState) :
    (resetView s).instruction_markers = s.instruction_markers := by
  obtain ⟨a, b, z, h⟩ := resetView_shape s
  rw [h]

@[simp] theorem resetView_frames (s : SimState) :
    (resetView s).frames = s.frames := by
  obtain ⟨a, b, z, h⟩ := resetView_shape s
  rw [h]

@[simp] theorem resetView_x (s : SimState) :
    (resetView s).x = s.x := by
  obtain ⟨a, b, z, h⟩ := resetView_shape s
  rw [h]

@[simp] theorem resetView_y (s : SimState) :
    (resetView s).y = s.y := by
  obtain ⟨a, b, z, h⟩ := resetView_shape s
  rw [h]

@[simp] theorem resetView_heading (s : SimState) :
    (resetView s).heading = s.heading := by
  obtain ⟨a, b, z, h⟩ := resetView_shape s
  rw [h]

@[simp] theorem resetView_axle_x (s : SimState) :
    (resetView s).axle_x = s.axle_x := by
  obtain ⟨a, b, z, h⟩ := resetView_shape s
  rw [h]

@[simp] theorem resetView_axle_y (s : SimState) :
    (resetView s).axle_y = s.axle_y := by
  obtain ⟨a, b, z, h⟩ := resetView_shape s
  rw [h]

@[simp] theorem resetView_movement_index (s : SimState) :
    (resetView s).movement_index = s.movement_index := by
  obtain ⟨a, b, z, h⟩ := resetView_shape s
  rw [h]

@[simp] theorem resetView_remaining_distance (s : SimState) :
    (resetView s).remaining_distance = s.remaining_distance := by
  obtain ⟨a, b, z, h⟩ := resetView_shape s
  rw [h]

@[simp] theorem resetView_active_wheel_command (s : SimState) :
    (resetView s).active_wheel_command = s.active_wheel_command := by
  obtain ⟨a, b, z, h⟩ := resetView_shape s
  rw [h]

@[simp] theorem resetView_direction_sign (s : SimState) :
    (resetView s).direction_sign = s.direction_sign := by
  obtain ⟨a, b, z, h⟩ := resetView_shape s
  rw [h]

@[simp] theorem resetView_previous_wheel (s : SimState) :
    (resetView s).previous_wheel = s.previous_wheel := by
  obtain ⟨a, b, z, h⟩ := resetView_shape s
  rw [h]

@[simp] theorem resetView_paused (s : SimState) :
    (resetView s).paused = s.paused := by
  obtain ⟨a, b, z, h⟩ := resetView_shape s
  rw [h]

@[simp] theorem resetView_frame_index (s : SimState) :
    (resetView s).frame_index = s.frame_index := by
  obtain ⟨a, b, z, h⟩ := resetView_shape s
  rw [h]

@[simp] theorem resetView_sim_frame_index (s : SimState) :
    (resetView s).sim_frame_index = s.sim_frame_index := by
  obtain ⟨a, b, z, h⟩ := resetView_shape s
  rw [h]

@[simp] theorem resetView_simulation_finished (s : SimState) :
    (resetView s).simulation_finished = s.simulation_finished := by
  obtain ⟨a, b, z, h⟩ := resetView_shape s
  rw [h]

@[simp] theorem resetView_scrubbing (s : SimState) :
    (resetView s).scrubbing = s.scrubbing := by
  obtain ⟨a, b, z, h⟩ := resetView_shape s
  rw [h]

@[simp] theorem resetView_scrubbing_direction (s : SimState) :
    (resetView s).scrubbing_direction = s.scrubbing_direction := by
  obtain ⟨a, b, z, h⟩ := resetView_shape s
  rw [h]

@[simp] theorem resetView_sim_frame_index_before_scrub (s : SimState) :
    (resetView s).sim_frame_index_before_scrub = s.sim_frame_index_before_scrub := by
  obtain ⟨a, b, z, h⟩ := resetView_shape s
  rw [h]

@[simp] theorem resetView_path (s : SimState) :
    (resetView s).path = s.path := by
  obtain ⟨a, b, z, h⟩ := resetView_shape s
  rw [h]

@[simp] theorem resetView_running (s : SimState) :
    (resetView s).running = s.running := by
  obtain ⟨a, b, z, h⟩ := resetView_shape s
  rw [h]



@[simp] theorem processEvent_frames (s : SimState) (e : Ev) :
    (processEvent s e).frames = s.frames := by
  cases e <;> simp only [processEvent] <;>
    first
      | rfl
      | (split <;> rfl)
      | (obtain ⟨a, b, z, h⟩ := resetView_shape s; rw [h])

@[simp] theorem processEvent_x (s : SimState) (e : Ev) :
    (processEvent s e).x = s.x := by
  cases e <;> simp only [processEvent] <;>
    first
      | rfl
      | (split <;> rfl)
      | (obtain ⟨a, b, z, h⟩ := resetView_shape s; rw [h])

@[simp] theorem processEvent_y (s : SimState) (e : Ev) :
    (processEvent s e).y = s.y := by
  cases e <;> simp only [processEvent] <;>
    first
      | rfl
      | (split <;> rfl)
      | (obtain ⟨a, b, z, h⟩ := resetView_shape s; rw [h])

@[simp] theorem processEvent_heading (s : SimState) (e : Ev) :
    (processEvent s e).heading = s.heading := by
  cases e <;> simp only [processEvent] <;>
    first
      | rfl
      | (split <;> rfl)
      | (obtain ⟨a, b, z, h⟩ := resetView_shape s; rw [h])

@[simp] theorem processEvent_axle_x (s : SimState) (e : Ev) :
    (processEvent s e).axle_x = s.axle_x := by
  cases e <;> simp only [processEvent] <;>
    first
      | rfl
      | (split <;> rfl)
      | (obtain ⟨a, b, z, h⟩ := resetView_shape s; rw [h])

@[simp] theorem processEvent_axle_y (s : SimState) (e : Ev) :
    (processEvent s e).axle_y = s.axle_y := by
  cases e <;> simp only [processEvent] <;>
    first
      | rfl
      | (split <;> rfl)
      | (obtain ⟨a, b, z, h⟩ := resetView_shape s; rw [h])

@[simp] theorem processEvent_movement_index (s : SimState) (e : Ev) :
    (processEvent s e).movement_index = s.movement_index := by
  cases e <;> simp only [processEvent] <;>
    first
      | rfl
      | (split <;> rfl)
      | (obtain ⟨a, b, z, h⟩ := resetView_shape s; rw [h])

@[simp] theorem processEvent_remaining_distance (s : SimState) (e : Ev) :
    (processEvent s e).remaining_distance = s.remaining_distance := by
  cases e <;> simp only [processEvent] <;>
    first
      | rfl
      | (split <;> rfl)
      | (obtain ⟨a, b, z, h⟩ := resetView_shape s; rw [h])

@[simp] theorem processEvent_active_wheel_command (s : SimState) (e : Ev) :
    (processEvent s e).active_wheel_command = s.active_wheel_command := by
  cases e <;> simp only [processEvent] <;>
    first
      | rfl
      | (split <;> rfl)
      | (obtain ⟨a, b, z, h⟩ := resetView_shape s; rw [h])

@[simp] theorem processEvent_direction_sign (s : SimState) (e : Ev) :
    (processEvent s e).direction_sign = s.direction_sign := by
  cases e <;> simp only [processEvent] <;>
    first
      | rfl
      | (split <;> rfl)
      | (obtain ⟨a, b, z, h⟩ := resetView_shape s; rw [h])

@[simp] theorem processEvent_instruction_markers (s : SimState) (e : Ev) :
    (processEvent s e).instruction_markers = s.instruction_markers := by
  cases e <;> simp only [processEvent] <;>
    first
      | rfl
      | (split <;> rfl)
      | (obtain ⟨a, b, z, h⟩ := resetView_shape s; rw [h])

@[simp] theorem processEvent_previous_wheel (s : SimState) (e : Ev) :
    (processEvent s e).previous_wheel = s.previous_wheel := by
  cases e <;> simp only [processEvent] <;>
    first
      | rfl
      | (split <;> rfl)
      | (obtain ⟨a, b, z, h⟩ := resetView_shape s; rw [h])

@[simp] theorem processEvent_path (s : SimState) (e : Ev) :
    (processEvent s e).path = s.path := by
  cases e <;> simp only [processEvent] <;>
    first
      | rfl
      | (split <;> rfl)
      | (obtain ⟨a, b, z, h⟩ := resetView_shape s; rw [h])

@[simp] theorem processEvent_simulation_finished (s : SimState) (e : Ev) :
    (processEvent s e).simulation_finished = s.simulation_finished := by
  cases e <;> simp only [processEvent] <;>
    first
      | rfl
      | (split <;> rfl)
      | (obtain ⟨a, b, z, h⟩ := resetView_shape s; rw [h])

@[simp] theorem eventsPhase_frames (i : Input) (s : SimState) :
    (eventsPhase i s).frames = s.frames := by
  unfold eventsPhase
  generalize i.events = l
  induction l generalizing s with
  | nil => rfl
  | cons e t ih => simp [List.foldl_cons, ih]

@[simp] theorem eventsPhase_x (i : Input) (s : SimState) :
    (eventsPhase i s).x = s.x := by
  unfold eventsPhase
  generalize i.events = l
  induction l generalizing s with
  | nil => rfl
  | cons e t ih => simp [List.foldl_cons, ih]

@[simp] theorem eventsPhase_y (i : Input) (s : SimState) :
    (eventsPhase i s).y = s.y := by
  unfold eventsPhase
  generalize i.events = l
  induction l generalizing s with
  | nil => rfl
  | cons e t ih => simp [List.foldl_cons, ih]

@[simp] theorem eventsPhase_heading (i : Input) (s : SimState) :
    (eventsPhase i s).heading = s.heading := by
  unfold eventsPhase
  generalize i.events = l
  induction l generalizing s with
  | nil => rfl
  | cons e t ih => simp [List.foldl_cons, ih]

@[simp] theorem eventsPhase_axle_x (i : Input) (s : SimState) :
    (eventsPhase i s).axle_x = s.axle_x := by
  unfold eventsPhase
  generalize i.events = l
  induction l generalizing s with
  | nil => rfl
  | cons e t ih => simp [List.foldl_cons, ih]

@[simp] theorem eventsPhase_axle_y (i : Input) (s : SimState) :
    (eventsPhase i s).axle_y = s.axle_y := by
  unfold eventsPhase
  generalize i.events = l
  induction l generalizing s with
  | nil => rfl
  | cons e t ih => simp [List.foldl_cons, ih]

@[simp] theorem eventsPhase_movement_index (i : Input) (s : SimState) :
    (eventsPhase i s).movement_index = s.movement_index := by
  unfold eventsPhase
  generalize i.events = l
  induction l generalizing s with
  | nil => rfl
  | cons e t ih => simp [List.foldl_cons, ih]

@[simp] theorem eventsPhase_remaining_distance (i : Input) (s : SimState) :
    (eventsPhase i s).remaining_distance = s.remaining_distance := by
  unfold eventsPhase
  generalize i.events = l
  induction l generalizing s with
  | nil => rfl
  | cons e t ih => simp [List.foldl_cons, ih]

@[simp] theorem eventsPhase_active_wheel_command (i : Input) (s : SimState) :
    (eventsPhase i s).active_wheel_command = s.active_wheel_command := by
  unfold eventsPhase
  generalize i.events = l
  induction l generalizing s with
  | nil => rfl
  | cons e t ih => simp [List.foldl_cons, ih]

@[simp] theorem eventsPhase_direction_sign (i : Input) (s : SimState) :
    (eventsPhase i s).direction_sign = s.direction_sign := by
  unfold eventsPhase
  generalize i.events = l
  induction l generalizing s with
  | nil => rfl
  | cons e t ih => simp [List.foldl_cons, ih]

@[simp] theorem eventsPhase_instruction_markers (i : Input) (s : SimState) :
    (eventsPhase i s).instruction_markers = s.instruction_markers := by
  unfold eventsPhase
  generalize i.events = l
  induction l generalizing s with
  | nil => rfl
  | cons e t ih => simp [List.foldl_cons, ih]

@[simp] theorem eventsPhase_previous_wheel (i : Input) (s : SimState) :
    (eventsPhase i s).previous_wheel = s.previous_wheel := by
  unfold eventsPhase
  generalize i.events = l
  induction l generalizing s with
  | nil => rfl
  | cons e t ih => simp [List.foldl_cons, ih]

@[simp] theorem eventsPhase_path (i : Input) (s : SimState) :
    (eventsPhase i s).path = s.path := by
  unfold eventsPhase
  generalize i.events = l
  induction l generalizing s with
  | nil => rfl
  | cons e t ih => simp [List.foldl_cons, ih]

@[simp] theorem eventsPhase_simulation_finished (i : Input) (s : SimState) :
    (eventsPhase i s).simulation_finished = s.simulation_finished := by
  unfold eventsPhase
  generalize i.events = l
  induction l generalizing s with
  | nil => rfl
  | cons e t ih => simp [List.foldl_cons, ih]

/-! ### More field-preservation lemmas, derived from the shapes -/

@[simp] theorem panPhase_instruction_markers (i : Input) (s : SimState) :
    (panPhase i s).instruction_markers = s.instruction_markers := by
  obtain ⟨a, b, z, h⟩ := panPhase_shape i s
  rw [h]

@[simp] theorem panPhase_frames (i : Input) (s : SimState) :
    (panPhase i s).frames = s.frames := by
  obtain ⟨a, b, z, h⟩ := panPhase_shape i s
  rw [h]

@[simp] theorem panPhase_x (i : Input) (s : SimState) :
    (panPhase i s).x = s.x := by
  obtain ⟨a, b, z, h⟩ := panPhase_shape i s
  rw [h]

@[simp] theorem panPhase_y (i : Input) (s : SimState) :
    (panPhase i s).y = s.y := by
  obtain ⟨a, b, z, h⟩ := panPhase_shape i s
  rw [h]

@[simp] theorem panPhase_heading (i : Input) (s : SimState) :
    (panPhase i s).heading = s.heading := by
  obtain ⟨a, b, z, h⟩ := panPhase_shape i s
  rw [h]

@[simp] theorem panPhase_axle_x (i : Input) (s : SimState) :
    (panPhase i s).axle_x = s.axle_x := by
  obtain ⟨a, b, z, h⟩ := panPhase_shape i s
  rw [h]

@[simp] theorem panPhase_axle_y (i : Input) (s : SimState) :
    (panPhase i s).axle_y = s.axle_y := by
  obtain ⟨a, b, z, h⟩ := panPhase_shape i s
  rw [h]

@[simp] theorem panPhase_movement_index (i : Input) (s : SimState) :
    (panPhase i s).movement_index = s.movement_index := by
  obtain ⟨a, b, z, h⟩ := panPhase_shape i s
  rw [h]

@[simp] theorem panPhase_remaining_distance (i : Input) (s : SimState) :
    (panPhase i s).remaining_distance = s.remaining_distance := by
  obtain ⟨a, b, z, h⟩ := panPhase_shape i s
  rw [h]

@[simp] theorem panPhase_active_wheel_command (i : Input) (s : SimState) :
    (panPhase i s).active_wheel_command = s.active_wheel_command := by
  obtain ⟨a, b, z, h⟩ := panPhase_shape i s
  rw [h]

@[simp] theorem panPhase_direction_sign (i : Input) (s : SimState) :
    (panPhase i s).direction_sign = s.direction_sign := by
  obtain ⟨a, b, z, h⟩ := panPhase_shape i s
  rw [h]

@[simp] theorem panPhase_previous_wheel (i : Input) (s : SimState) :
    (panPhase i s).previous_wheel = s.previous_wheel := by
  obtain ⟨a, b, z, h⟩ := panPhase_shape i s
  rw [h]

@[simp] theorem panPhase_paused (i : Input) (s : SimState) :
    (panPhase i s).paused = s.paused := by
  obtain ⟨a, b, z, h⟩ := panPhase_shape i s
  rw [h]

@[simp] theorem panPhase_frame_index (i : Input) (s : SimState) :
    (panPhase i s).frame_index = s.frame_index := by
  obtain ⟨a, b, z, h⟩ := panPhase_shape i s
  rw [h]

@[simp] theorem panPhase_sim_frame_index (i : Input) (s : SimState) :
    (panPhase i s).sim_frame_index = s.sim_frame_index := by
  obtain ⟨a, b, z, h⟩ := panPhase_shape i s
  rw [h]

@[simp] theorem panPhase_simulation_finished (i : Input) (s : SimState) :
    (panPhase i s).simulation_finished = s.simulation_finished := by
  obtain ⟨a, b, z, h⟩ := panPhase_shape i s
  rw [h]

@[simp] theorem panPhase_scrubbing (i : Input) (s : SimState) :
    (panPhase i s).scrubbing = s.scrubbing := by
  obtain ⟨a, b, z, h⟩ := panPhase_shape i s
  rw [h]

@[simp] theorem panPhase_scrubbing_direction (i : Input) (s : SimState) :
    (panPhase i s).scrubbing_direction = s.scrubbing_direction := by
  obtain ⟨a, b, z, h⟩ := panPhase_shape i s
  rw [h]

@[simp] theorem panPhase_sim_frame_index_before_scrub (i : Input) (s : SimState) :
    (panPhase i s).sim_frame_index_before_scrub = s.sim_frame_index_before_scrub := by
  obtain ⟨a, b, z, h⟩ := panPhase_shape i s
  rw [h]

@[simp] theorem panPhase_path (i : Input) (s : SimState) :
    (panPhase i s).path = s.path := by
  obtain ⟨a, b, z, h⟩ := panPhase_shape i s
  rw [h]

@[simp] theorem panPhase_running (i : Input) (s : SimState) :
    (panPhase i s).running = s.running := by
  obtain ⟨a, b, z, h⟩ := panPhase_shape i s
  rw [h]

@[simp] theorem scrubPhase_instruction_markers (s : SimState) :
    (scrubPhase s).instruction_markers = s.instruction_markers := by
  obtain ⟨a, h⟩ := scrubPhase_shape s
  rw [h]

@[simp] theorem scrubPhase_frames (s : SimState) :
    (scrubPhase s).frames = s.frames := by
  obtain ⟨a, h⟩ := scrubPhase_shape s
  rw [h]

@[simp] theorem scrubPhase_x (s : SimState) :
    (scrubPhase s).x = s.x := by
  obtain ⟨a, h⟩ := scrubPhase_shape s
  rw [h]

@[simp] theorem scrubPhase_y (s : SimState) :
    (scrubPhase s).y = s.y := by
  obtain ⟨a, h⟩ := scrubPhase_shape s
  rw [h]

@[simp] theorem scrubPhase_heading (s : SimState) :
    (scrubPhase s).heading = s.heading := by
  obtain ⟨a, h⟩ := scrubPhase_shape s
  rw [h]

@[simp] theorem scrubPhase_axle_x (s : SimState) :
    (scrubPhase s).axle_x = s.axle_x := by
  obtain ⟨a, h⟩ := scrubPhase_shape s
  rw [h]

@[simp] theorem scrubPhase_axle_y (s : SimState) :
    (scrubPhase s).axle_y = s.axle_y := by
  obtain ⟨a, h⟩ := scrubPhase_shape s
  rw [h]

@[simp] theorem scrubPhase_movement_index (s : SimState) :
    (scrubPhase s).movement_index = s.movement_index := by
  obtain ⟨a, h⟩ := scrubPhase_shape s
  rw [h]

@[simp] theorem scrubPhase_remaining_distance (s : SimState) :
    (scrubPhase s).remaining_distance = s.remaining_distance := by
  obtain ⟨a, h⟩ := scrubPhase_shape s
  rw [h]

@[simp] theorem scrubPhase_active_wheel_command (s : SimState) :
    (scrubPhase s).active_wheel_command = s.active_wheel_command := by
  obtain ⟨a, h⟩ := scrubPhase_shape s
  rw [h]

@[simp] theorem scrubPhase_direction_sign (s : SimState) :
    (scrubPhase s).direction_sign = s.direction_sign := by
  obtain ⟨a, h⟩ := scrubPhase_shape s
  rw [h]

@[simp] theorem scrubPhase_previous_wheel (s : SimState) :
    (scrubPhase s).previous_wheel = s.previous_wheel := by
  obtain ⟨a, h⟩ := scrubPhase_shape s
  rw [h]

@[simp] theorem scrubPhase_paused (s : SimState) :
    (scrubPhase s).paused = s.paused := by
  obtain ⟨a, h⟩ := scrubPhase_shape s
  rw [h]

@[simp] theorem scrubPhase_sim_frame_index (s : SimState) :
    (scrubPhase s).sim_frame_index = s.sim_frame_index := by
  obtain ⟨a, h⟩ := scrubPhase_shape s
  rw [h]

@[simp] theorem scrubPhase_simulation_finished (s : SimState) :
    (scrubPhase s).simulation_finished = s.simulation_finished := by
  obtain ⟨a, h⟩ := scrubPhase_shape s
  rw [h]

@[simp] theorem scrubPhase_scrubbing (s : SimState) :
    (scrubPhase s).scrubbing = s.scrubbing := by
  obtain ⟨a, h⟩ := scrubPhase_shape s
  rw [h]

@[simp] theorem scrubPhase_scrubbing_direction (s : SimState) :
    (scrubPhase s).scrubbing_direction = s.scrubbing_direction := by
  obtain ⟨a, h⟩ := scrubPhase_shape s
  rw [h]

@[simp] theorem scrubPhase_sim_frame_index_before_scrub (s : SimState) :
    (scrubPhase s).sim_frame_index_before_scrub = s.sim_frame_index_before_scrub := by
  obtain ⟨a, h⟩ := scrubPhase_shape s
  rw [h]

@[simp] theorem scrubPhase_path (s : SimState) :
    (scrubPhase s).path = s.path := by
  obtain ⟨a, h⟩ := scrubPhase_shape s
  rw [h]

@[simp] theorem scrubPhase_running (s : SimState) :
    (scrubPhase s).running = s.running := by
  obtain ⟨a, h⟩ := scrubPhase_shape s
  rw [h]

@[simp] theorem autoScroll_instruction_markers (i : Input) (s : SimState) :
    (autoScroll i s).instruction_markers = s.instruction_markers := by
  obtain ⟨a, b, h⟩ := autoScroll_shape i s
  rw [h]

@[simp] theorem autoScroll_frames (i : Input) (s : SimState) :
    (autoScroll i s).frames = s.frames := by
  obtain ⟨a, b, h⟩ := autoScroll_shape i s
  rw [h]

@[simp] theorem autoScroll_x (i : Input) (s : SimState) :
    (autoScroll i s).x = s.x := by
  obtain ⟨a, b, h⟩ := autoScroll_shape i s
  rw [h]

@[simp] theorem autoScroll_y (i : Input) (s : SimState) :
    (autoScroll i s).y = s.y := by
  obtain ⟨a, b, h⟩ := autoScroll_shape i s
  rw [h]

@[simp] theorem autoScroll_heading (i : Input) (s : SimState) :
    (autoScroll i s).heading = s.heading := by
  obtain ⟨a, b, h⟩ := autoScroll_shape i s
  rw [h]

@[simp] theorem autoScroll_axle_x (i : Input) (s : SimState) :
    (autoScroll i s).axle_x = s.axle_x := by
  obtain ⟨a, b, h⟩ := autoScroll_shape i s
  rw [h]

@[simp] theorem autoScroll_axle_y (i : Input) (s : SimState) :
    (autoScroll i s).axle_y = s.axle_y := by
  obtain ⟨a, b, h⟩ := autoScroll_shape i s
  rw [h]

@[simp] theorem autoScroll_movement_index (i : Input) (s : SimState) :
    (autoScroll i s).movement_index = s.movement_index := by
  obtain ⟨a, b, h⟩ := autoScroll_shape i s
  rw [h]

@[simp] theorem autoScroll_remaining_distance (i : Input) (s : SimState) :
    (autoScroll i s).remaining_distance = s.remaining_distance := by
  obtain ⟨a, b, h⟩ := autoScroll_shape i s
  rw [h]

@[simp] theorem autoScroll_active_wheel_command (i : Input) (s : SimState) :
    (autoScroll i s).active_wheel_command = s.active_wheel_command := by
  obtain ⟨a, b, h⟩ := autoScroll_shape i s
  rw [h]

@[simp] theorem autoScroll_direction_sign (i : Input) (s : SimState) :
    (autoScroll i s).direction_sign = s.direction_sign := by
  obtain ⟨a, b, h⟩ := autoScroll_shape i s
  rw [h]

@[simp] theorem autoScroll_previous_wheel (i : Input) (s : SimState) :
    (autoScroll i s).previous_wheel = s.previous_wheel := by
  obtain ⟨a, b, h⟩ := autoScroll_shape i s
  rw [h]

@[simp] theorem autoScroll_paused (i : Input) (s : SimState) :
    (autoScroll i s).paused = s.paused := by
  obtain ⟨a, b, h⟩ := autoScroll_shape i s
  rw [h]

@[simp] theorem autoScroll_frame_index (i : Input) (s : SimState) :
    (autoScroll i s).frame_index = s.frame_index := by
  obtain ⟨a, b, h⟩ := autoScroll_shape i s
  rw [h]

@[simp] theorem autoScroll_sim_frame_index (i : Input) (s : SimState) :
    (autoScroll i s).sim_frame_index = s.sim_frame_index := by
  obtain ⟨a, b, h⟩ := autoScroll_shape i s
  rw [h]

@[simp] theorem autoScroll_simulation_finished (i : Input) (s : SimState) :
    (autoScroll i s).simulation_finished = s.simulation_finished := by
  obtain ⟨a, b, h⟩ := autoScroll_shape i s
  rw [h]

@[simp] theorem autoScroll_scrubbing (i : Input) (s : SimState) :
    (autoScroll i s).scrubbing = s.scrubbing := by
  obtain ⟨a, b, h⟩ := autoScroll_shape i s
  rw [h]

@[simp] theorem autoScroll_scrubbing_direction (i : Input) (s : SimState) :
    (autoScroll i s).scrubbing_direction = s.scrubbing_direction := by
  obtain ⟨a, b, h⟩ := autoScroll_shape i s
  rw [h]

@[simp] theorem autoScroll_sim_frame_index_before_scrub (i : Input) (s : SimState) :
    (autoScroll i s).sim_frame_index_before_scrub = s.sim_frame_index_before_scrub := by
  obtain ⟨a, b, h⟩ := autoScroll_shape i s
  rw [h]

@[simp] theorem autoScroll_path (i : Input) (s : SimState) :
    (autoScroll i s).path = s.path := by
  obtain ⟨a, b, h⟩ := autoScroll_shape i s
  rw [h]

@[simp] theorem autoScroll_running (i : Input) (s : SimState) :
    (autoScroll i s).running = s.running := by
  obtain ⟨a, b, h⟩ := autoScroll_shape i s
  rw [h]

@[simp] theorem autoScroll_zoom (i : Input) (s : SimState) :
    (autoScroll i s).zoom = s.zoom := by
  obtain ⟨a, b, h⟩ := autoScroll_shape i s
  rw [h]

@[simp] theorem motionStep_instruction_markers (p : RobotParameters) (s : SimState) :
    (motionStep p s).instruction_markers = s.instruction_markers := by
  obtain ⟨a, b, c, d, e, r, q, h⟩ := motionStep_shape p s
  rw [h]

@[simp] theorem motionStep_frames (p : RobotParameters) (s : SimState) :
    (motionStep p s).frames = s.frames := by
  obtain ⟨a, b, c, d, e, r, q, h⟩ := motionStep_shape p s
  rw [h]

@[simp] theorem motionStep_movement_index (p : RobotParameters) (s : SimState) :
    (motionStep p s).movement_index = s.movement_index := by
  obtain ⟨a, b, c, d, e, r, q, h⟩ := motionStep_shape p s
  rw [h]

@[simp] theorem motionStep_direction_sign (p : RobotParameters) (s : SimState) :
    (motionStep p s).direction_sign = s.direction_sign := by
  obtain ⟨a, b, c, d, e, r, q, h⟩ := motionStep_shape p s
  rw [h]

@[simp] theorem motionStep_previous_wheel (p : RobotParameters) (s : SimState) :
    (motionStep p s).previous_wheel = s.previous_wheel := by
  obtain ⟨a, b, c, d, e, r, q, h⟩ := motionStep_shape p s
  rw [h]

@[simp] theorem motionStep_paused (p : RobotParameters) (s : SimState) :
    (motionStep p s).paused = s.paused := by
  obtain ⟨a, b, c, d, e, r, q, h⟩ := motionStep_shape p s
  rw [h]

@[simp] theorem motionStep_frame_index (p : RobotParameters) (s : SimState) :
    (motionStep p s).frame_index = s.frame_index := by
  obtain ⟨a, b, c, d, e, r, q, h⟩ := motionStep_shape p s
  rw [h]

@[simp] theorem motionStep_sim_frame_index (p : RobotParameters) (s : SimState) :
    (motionStep p s).sim_frame_index = s.sim_frame_index := by
  obtain ⟨a, b, c, d, e, r, q, h⟩ := motionStep_shape p s
  rw [h]

@[simp] theorem motionStep_simulation_finished (p : RobotParameters) (s : SimState) :
    (motionStep p s).simulation_finished = s.simulation_finished := by
  obtain ⟨a, b, c, d, e, r, q, h⟩ := motionStep_shape p s
  rw [h]

@[simp] theorem motionStep_scrubbing (p : RobotParameters) (s : SimState) :
    (motionStep p s).scrubbing = s.scrubbing := by
  obtain ⟨a, b, c, d, e, r, q, h⟩ := motionStep_shape p s
  rw [h]

@[simp] theorem motionStep_scrubbing_direction (p : RobotParameters) (s : SimState) :
    (motionStep p s).scrubbing_direction = s.scrubbing_direction := by
  obtain ⟨a, b, c, d, e, r, q, h⟩ := motionStep_shape p s
  rw [h]

@[simp] theorem motionStep_sim_frame_index_before_scrub (p : RobotParameters) (s : SimState) :
    (motionStep p s).sim_frame_index_before_scrub = s.sim_frame_index_before_scrub := by
  obtain ⟨a, b, c, d, e, r, q, h⟩ := motionStep_shape p s
  rw [h]

@[simp] theorem motionStep_running (p : RobotParameters) (s : SimState) :
    (motionStep p s).running = s.running := by
  obtain ⟨a, b, c, d, e, r, q, h⟩ := motionStep_shape p s
  rw [h]

@[simp] theorem activateWith_frames (p : RobotParameters) (display : DisplayOptions) (m : Movement) (s : SimState) :
    (activateWith p display m s).frames = s.frames := by
  obtain ⟨r, a, d, mk, pw, mi, h⟩ := activateWith_shape p display m s
  rw [h]

@[simp] theorem activateWith_x (p : RobotParameters) (display : DisplayOptions) (m : Movement) (s : SimState) :
    (activateWith p display m s).x = s.x := by
  obtain ⟨r, a, d, mk, pw, mi, h⟩ := activateWith_shape p display m s
  rw [h]

@[simp] theorem activateWith_y (p : RobotParameters) (display : DisplayOptions) (m : Movement) (s : SimState) :
    (activateWith p display m s).y = s.y := by
  obtain ⟨r, a, d, mk, pw, mi, h⟩ := activateWith_shape p display m s
  rw [h]

@[simp] theorem activateWith_heading (p : RobotParameters) (display : DisplayOptions) (m : Movement) (s : SimState) :
    (activateWith p display m s).heading = s.heading := by
  obtain ⟨r, a, d, mk, pw, mi, h⟩ := activateWith_shape p display m s
  rw [h]

@[simp] theorem activateWith_axle_x (p : RobotParameters) (display : DisplayOptions) (m : Movement) (s : SimState) :
    (activateWith p display m s).axle_x = s.axle_x := by
  obtain ⟨r, a, d, mk, pw, mi, h⟩ := activateWith_shape p display m s
  rw [h]

@[simp] theorem activateWith_axle_y (p : RobotParameters) (display : DisplayOptions) (m : Movement) (s : SimState) :
    (activateWith p display m s).axle_y = s.axle_y := by
  obtain ⟨r, a, d, mk, pw, mi, h⟩ := activateWith_shape p display m s
  rw [h]

@[simp] theorem activateWith_path (p : RobotParameters) (display : DisplayOptions) (m : Movement) (s : SimState) :
    (activateWith p display m s).path = s.path := by
  obtain ⟨r, a, d, mk, pw, mi, h⟩ := activateWith_shape p display m s
  rw [h]

@[simp] theorem activateWith_paused (p : RobotParameters) (display : DisplayOptions) (m : Movement) (s : SimState) :
    (activateWith p display m s).paused = s.paused := by
  obtain ⟨r, a, d, mk, pw, mi, h⟩ := activateWith_shape p display m s
  rw [h]

@[simp] theorem activateWith_scrubbing (p : RobotParameters) (display : DisplayOptions) (m : Movement) (s : SimState) :
    (activateWith p display m s).scrubbing = s.scrubbing := by
  obtain ⟨r, a, d, mk, pw, mi, h⟩ := activateWith_shape p display m s
  rw [h]

@[simp] theorem activateWith_scrubbing_direction (p : RobotParameters) (display : DisplayOptions) (m : Movement) (s : SimState) :
    (activateWith p display m s).scrubbing_direction = s.scrubbing_direction := by
  obtain ⟨r, a, d, mk, pw, mi, h⟩ := activateWith_shape p display m s
  rw [h]

@[simp] theorem activateWith_simulation_finished (p : RobotParameters) (display : DisplayOptions) (m : Movement) (s : SimState) :
    (activateWith p display m s).simulation_finished = s.simulation_finished := by
  obtain ⟨r, a, d, mk, pw, mi, h⟩ := activateWith_shape p display m s
  rw [h]

@[simp] theorem activateWith_frame_index (p : RobotParameters) (display : DisplayOptions) (m : Movement) (s : SimState) :
    (activateWith p display m s).frame_index = s.frame_index := by
  obtain ⟨r, a, d, mk, pw, mi, h⟩ := activateWith_shape p display m s
  rw [h]

@[simp] theorem activateWith_sim_frame_index (p : RobotParameters) (display : DisplayOptions) (m : Movement) (s : SimState) :
    (activateWith p display m s).sim_frame_index = s.sim_frame_index := by
  obtain ⟨r, a, d, mk, pw, mi, h⟩ := activateWith_shape p display m s
  rw [h]

@[simp] theorem activateWith_sim_frame_index_before_scrub (p : RobotParameters) (display : DisplayOptions) (m : Movement) (s : SimState) :
    (activateWith p display m s).sim_frame_index_before_scrub = s.sim_frame_index_before_scrub := by
  obtain ⟨r, a, d, mk, pw, mi, h⟩ := activateWith_shape p display m s
  rw [h]

@[simp] theorem activateWith_running (p : RobotParameters) (display : DisplayOptions) (m : Movement) (s : SimState) :
    (activateWith p display m s).running = s.running := by
  obtain ⟨r, a, d, mk, pw, mi, h⟩ := activateWith_shape p display m s
  rw [h]

@[simp] theorem recordFrame_instruction_markers (s : SimState) :
    (recordFrame s).instruction_markers = s.instruction_markers := rfl

@[simp] theorem recordFrame_x (s : SimState) :
    (recordFrame s).x = s.x := rfl

@[simp] theorem recordFrame_y (s : SimState) :
    (recordFrame s).y = s.y := rfl

@[simp] theorem recordFrame_heading (s : SimState) :
    (recordFrame s).heading = s.heading := rfl

@[simp] theorem recordFrame_axle_x (s : SimState) :
    (recordFrame s).axle_x = s.axle_x := rfl

@[simp] theorem recordFrame_axle_y (s : SimState) :
    (recordFrame s).axle_y = s.axle_y := rfl

@[simp] theorem recordFrame_movement_index (s : SimState) :
    (recordFrame s).movement_index = s.movement_index := rfl

@[simp] theorem recordFrame_remaining_distance (s : SimState) :
    (recordFrame s).remaining_distance = s.remaining_distance := rfl

@[simp] theorem recordFrame_active_wheel_command (s : SimState) :
    (recordFrame s).active_wheel_command = s.active_wheel_command := rfl

@[simp] theorem recordFrame_direction_sign (s : SimState) :
    (recordFrame s).direction_sign = s.direction_sign := rfl

@[simp] theorem recordFrame_previous_wheel (s : SimState) :
    (recordFrame s).previous_wheel = s.previous_wheel := rfl

@[simp] theorem recordFrame_paused (s : SimState) :
    (recordFrame s).paused = s.paused := rfl

@[simp] theorem recordFrame_frame_index (s : SimState) :
    (recordFrame s).frame_index = s.frame_index := rfl

@[simp] theorem recordFrame_sim_frame_index (s : SimState) :
    (recordFrame s).sim_frame_index = s.sim_frame_index := rfl

@[simp] theorem recordFrame_simulation_finished (s : SimState) :
    (recordFrame s).simulation_finished = s.simulation_finished := rfl

@[simp] theorem recordFrame_scrubbing (s : SimState) :
    (recordFrame s).scrubbing = s.scrubbing := rfl

@[simp] theorem recordFrame_scrubbing_direction (s : SimState) :
    (recordFrame s).scrubbing_direction = s.scrubbing_direction := rfl

@[simp] theorem recordFrame_sim_frame_index_before_scrub (s : SimState) :
    (recordFrame s).sim_frame_index_before_scrub = s.sim_frame_index_before_scrub := rfl

@[simp] theorem recordFrame_path (s : SimState) :
    (recordFrame s).path = s.path := rfl

@[simp] theorem recordFrame_running (s : SimState) :
    (recordFrame s).running = s.running := rfl


/-! ### Simulation-block basics -/

theorem simPhase_not_advancing (p : RobotParameters) (movements : List Movement)
    (display : DisplayOptions) (i : Input) (s : SimState)
    (h : s.paused = true ∨ s.scrubbing = true ∨ s.simulation_finished = true) :
    simPhase p movements display i s = s := by
  unfold simPhase
  rw [if_neg]
  rintro ⟨h1, h2, h3⟩
  rcases h with h | h | h <;> simp_all

/-! ### Auxiliary projection facts used early -/

theorem motionStep_active_aux (p : RobotParameters) (s : SimState) :
    (motionStep p s).active_wheel_command = s.active_wheel_command := by
  obtain ⟨a, b, c, d, e, r, q, h⟩ := motionStep_shape p s
  rw [h]

theorem motionStep_remaining_distance (p : RobotParameters) (s : SimState) :
    (motionStep p s).remaining_distance =
      s.remaining_distance - min p.step_size s.remaining_distance := by
  unfold motionStep
  dsimp only
  split <;> rfl

theorem recordFrame_frames_length_aux (s : SimState) :
    (recordFrame s).frames.length = s.frames.length + 1 := by
  simp [recordFrame]

/-! ### Stage-level lemmas for the simulation block -/

@[simp] theorem activateWith_remaining_distance (p : RobotParameters)
    (display : DisplayOptions) (m : Movement) (s : SimState) :
    (activateWith p display m s).remaining_distance
      = m.rotations * p.wheel_circumference := by
  unfold activateWith
  dsimp only
  split <;> rfl

@[simp] theorem activateWith_movement_index (p : RobotParameters)
    (display : DisplayOptions) (m : Movement) (s : SimState) :
    (activateWith p display m s).movement_index = s.movement_index + 1 := by
  unfold activateWith
  dsimp only
  split <;> rfl

@[simp] theorem activateWith_active_wheel_command (p : RobotParameters)
    (display : DisplayOptions) (m : Movement) (s : SimState) :
    (activateWith p display m s).active_wheel_command = some m.wheels := by
  unfold activateWith
  dsimp only
  split <;> rfl

@[simp] theorem activateWith_direction_sign (p : RobotParameters)
    (display : DisplayOptions) (m : Movement) (s : SimState) :
    (activateWith p display m s).direction_sign
      = if m.direction = MoveDir.forward then (1 : ℝ) else -1 := by
  unfold activateWith
  dsimp only
  split <;> rfl

theorem activateWith_instruction_markers (p : RobotParameters)
    (display : DisplayOptions) (m : Movement) (s : SimState) :
    (activateWith p display m s).instruction_markers =
      if display.show_turns = true ∧ some m.wheels ≠ s.previous_wheel
      then s.instruction_markers ++ [(s.x, s.y)]
      else s.instruction_markers := by
  unfold activateWith
  dsimp only
  split
  case isTrue h => rfl
  case isFalse h => rfl

theorem activateWith_previous_wheel (p : RobotParameters)
    (display : DisplayOptions) (m : Movement) (s : SimState) :
    (activateWith p display m s).previous_wheel =
      if display.show_turns = true ∧ some m.wheels ≠ s.previous_wheel
      then some m.wheels
      else s.previous_wheel := by
  unfold activateWith
  dsimp only
  split
  case isTrue h => rfl
  case isFalse h => rfl

@[simp] theorem stepPhase_active_wheel_command (p : RobotParameters) (s : SimState) :
    (stepPhase p s).active_wheel_command = s.active_wheel_command := by
  unfold stepPhase
  split
  · exact motionStep_active_aux p s
  · rfl

@[simp] theorem recordAndPoint_simulation_finished (s : SimState) :
    (recordAndPoint s).simulation_finished = s.simulation_finished := rfl

@[simp] theorem recordAndPoint_frames_length (s : SimState) :
    (recordAndPoint s).frames.length = s.frames.length + 1 := by
  simp [recordAndPoint, recordFrame]

@[simp] theorem recordAndPoint_frame_index (s : SimState) :
    (recordAndPoint s).frame_index = (s.frames.length : ℤ) := by
  show ((recordFrame s).frames.length : ℤ) - 1 = (s.frames.length : ℤ)
  rw [recordFrame_frames_length_aux]
  push_cast
  ring

@[simp] theorem recordAndPoint_sim_frame_index (s : SimState) :
    (recordAndPoint s).sim_frame_index = (s.frames.length : ℤ) := by
  show ((recordFrame s).frames.length : ℤ) - 1 = (s.frames.length : ℤ)
  rw [recordFrame_frames_length_aux]
  push_cast
  ring

@[simp] theorem activatePhase_frames (p : RobotParameters) (movements : List Movement)
    (display : DisplayOptions) (s : SimState) :
    (activatePhase p movements display s).frames = s.frames := by
  unfold activatePhase
  repeat' split
  all_goals simp

@[simp] theorem activatePhase_x (p : RobotParameters) (movements : List Movement)
    (display : DisplayOptions) (s : SimState) :
    (activatePhase p movements display s).x = s.x := by
  unfold activatePhase
  repeat' split
  all_goals simp

@[simp] theorem activatePhase_y (p : RobotParameters) (movements : List Movement)
    (display : DisplayOptions) (s : SimState) :
    (activatePhase p movements display s).y = s.y := by
  unfold activatePhase
  repeat' split
  all_goals simp

@[simp] theorem activatePhase_heading (p : RobotParameters) (movements : List Movement)
    (display : DisplayOptions) (s : SimState) :
    (activatePhase p movements display s).heading = s.heading := by
  unfold activatePhase
  repeat' split
  all_goals simp

@[simp] theorem activatePhase_axle_x (p : RobotParameters) (movements : List Movement)
    (display : DisplayOptions) (s : SimState) :
    (activatePhase p movements display s).axle_x = s.axle_x := by
  unfold activatePhase
  repeat' split
  all_goals simp

@[simp] theorem activatePhase_axle_y (p : RobotParameters) (movements : List Movement)
    (display : DisplayOptions) (s : SimState) :
    (activatePhase p movements display s).axle_y = s.axle_y := by
  unfold activatePhase
  repeat' split
  all_goals simp

@[simp] theorem activatePhase_path (p : RobotParameters) (movements : List Movement)
    (display : DisplayOptions) (s : SimState) :
    (activatePhase p movements display s).path = s.path := by
  unfold activatePhase
  repeat' split
  all_goals simp

@[simp] theorem activatePhase_paused (p : RobotParameters) (movements : List Movement)
    (display : DisplayOptions) (s : SimState) :
    (activatePhase p movements display s).paused = s.paused := by
  unfold activatePhase
  repeat' split
  all_goals simp

@[simp] theorem activatePhase_scrubbing (p : RobotParameters) (movements : List Movement)
    (display : DisplayOptions) (s : SimState) :
    (activatePhase p movements display s).scrubbing = s.scrubbing := by
  unfold activatePhase
  repeat' split
  all_goals simp

@[simp] theorem activatePhase_scrubbing_direction (p : RobotParameters) (movements : List Movement)
    (display : DisplayOptions) (s : SimState) :
    (activatePhase p movements display s).scrubbing_direction = s.scrubbing_direction := by
  unfold activatePhase
  repeat' split
  all_goals simp

@[simp] theorem activatePhase_simulation_finished (p : RobotParameters) (movements : List Movement)
    (display : DisplayOptions) (s : SimState) :
    (activatePhase p movements display s).simulation_finished = s.simulation_finished := by
  unfold activatePhase
  repeat' split
  all_goals simp

@[simp] theorem activatePhase_frame_index (p : RobotParameters) (movements : List Movement)
    (display : DisplayOptions) (s : SimState) :
    (activatePhase p movements display s).frame_index = s.frame_index := by
  unfold activatePhase
  repeat' split
  all_goals simp

@[simp] theorem activatePhase_sim_frame_index (p : RobotParameters) (movements : List Movement)
    (display : DisplayOptions) (s : SimState) :
    (activatePhase p movements display s).sim_frame_index = s.sim_frame_index := by
  unfold activatePhase
  repeat' split
  all_goals simp

@[simp] theorem activatePhase_sim_frame_index_before_scrub (p : RobotParameters) (movements : List Movement)
    (display : DisplayOptions) (s : SimState) :
    (activatePhase p movements display s).sim_frame_index_before_scrub = s.sim_frame_index_before_scrub := by
  unfold activatePhase
  repeat' split
  all_goals simp

@[simp] theorem activatePhase_running (p : RobotParameters) (movements : List Movement)
    (display : DisplayOptions) (s : SimState) :
    (activatePhase p movements display s).running = s.running := by
  unfold activatePhase
  repeat' split
  all_goals simp

@[simp] theorem stepPhase_frames (p : RobotParameters) (s : SimState) :
    (stepPhase p s).frames = s.frames := by
  unfold stepPhase
  split <;> simp

@[simp] theorem stepPhase_instruction_markers (p : RobotParameters) (s : SimState) :
    (stepPhase p s).instruction_markers = s.instruction_markers := by
  unfold stepPhase
  split <;> simp

@[simp] theorem stepPhase_movement_index (p : RobotParameters) (s : SimState) :
    (stepPhase p s).movement_index = s.movement_index := by
  unfold stepPhase
  split <;> simp

@[simp] theorem stepPhase_direction_sign (p : RobotParameters) (s : SimState) :
    (stepPhase p s).direction_sign = s.direction_sign := by
  unfold stepPhase
  split <;> simp

@[simp] theorem stepPhase_previous_wheel (p : RobotParameters) (s : SimState) :
    (stepPhase p s).previous_wheel = s.previous_wheel := by
  unfold stepPhase
  split <;> simp

@[simp] theorem stepPhase_paused (p : RobotParameters) (s : SimState) :
    (stepPhase p s).paused = s.paused := by
  unfold stepPhase
  split <;> simp

@[simp] theorem stepPhase_scrubbing (p : RobotParameters) (s : SimState) :
    (stepPhase p s).scrubbing = s.scrubbing := by
  unfold stepPhase
  split <;> simp

@[simp] theorem stepPhase_scrubbing_direction (p : RobotParameters) (s : SimState) :
    (stepPhase p s).scrubbing_direction = s.scrubbing_direction := by
  unfold stepPhase
  split <;> simp

@[simp] theorem stepPhase_simulation_finished (p : RobotParameters) (s : SimState) :
    (stepPhase p s).simulation_finished = s.simulation_finished := by
  unfold stepPhase
  split <;> simp

@[simp] theorem stepPhase_frame_index (p : RobotParameters) (s : SimState) :
    (stepPhase p s).frame_index = s.frame_index := by
  unfold stepPhase
  split <;> simp

@[simp] theorem stepPhase_sim_frame_index (p : RobotParameters) (s : SimState) :
    (stepPhase p s).sim_frame_index = s.sim_frame_index := by
  unfold stepPhase
  split <;> simp

@[simp] theorem stepPhase_sim_frame_index_before_scrub (p : RobotParameters) (s : SimState) :
    (stepPhase p s).sim_frame_index_before_scrub = s.sim_frame_index_before_scrub := by
  unfold stepPhase
  split <;> simp

@[simp] theorem stepPhase_running (p : RobotParameters) (s : SimState) :
    (stepPhase p s).running = s.running := by
  unfold stepPhase
  split <;> simp

@[simp] theorem finishCheck_frames (movements : List Movement) (s : SimState) :
    (finishCheck movements s).frames = s.frames := by
  unfold finishCheck
  split <;> rfl

@[simp] theorem finishCheck_instruction_markers (movements : List Movement) (s : SimState) :
    (finishCheck movements s).instruction_markers = s.instruction_markers := by
  unfold finishCheck
  split <;> rfl

@[simp] theorem finishCheck_x (movements : List Movement) (s : SimState) :
    (finishCheck movements s).x = s.x := by
  unfold finishCheck
  split <;> rfl

@[simp] theorem finishCheck_y (movements : List Movement) (s : SimState) :
    (finishCheck movements s).y = s.y := by
  unfold finishCheck
  split <;> rfl

@[simp] theorem finishCheck_heading (movements : List Movement) (s : SimState) :
    (finishCheck movements s).heading = s.heading := by
  unfold finishCheck
  split <;> rfl

@[simp] theorem finishCheck_axle_x (movements : List Movement) (s : SimState) :
    (finishCheck movements s).axle_x = s.axle_x := by
  unfold finishCheck
  split <;> rfl

@[simp] theorem finishCheck_axle_y (movements : List Movement) (s : SimState) :
    (finishCheck movements s).axle_y = s.axle_y := by
  unfold finishCheck
  split <;> rfl

@[simp] theorem finishCheck_movement_index (movements : List Movement) (s : SimState) :
    (finishCheck movements s).movement_index = s.movement_index := by
  unfold finishCheck
  split <;> rfl

@[simp] theorem finishCheck_remaining_distance (movements : List Movement) (s : SimState) :
    (finishCheck movements s).remaining_distance = s.remaining_distance := by
  unfold finishCheck
  split <;> rfl

@[simp] theorem finishCheck_active_wheel_command (movements : List Movement) (s : SimState) :
    (finishCheck movements s).active_wheel_command = s.active_wheel_command := by
  unfold finishCheck
  split <;> rfl

@[simp] theorem finishCheck_direction_sign (movements : List Movement) (s : SimState) :
    (finishCheck movements s).direction_sign = s.direction_sign := by
  unfold finishCheck
  split <;> rfl

@[simp] theorem finishCheck_previous_wheel (movements : List Movement) (s : SimState) :
    (finishCheck movements s).previous_wheel = s.previous_wheel := by
  unfold finishCheck
  split <;> rfl

@[simp] theorem finishCheck_paused (movements : List Movement) (s : SimState) :
    (finishCheck movements s).paused = s.paused := by
  unfold finishCheck
  split <;> rfl

@[simp] theorem finishCheck_scrubbing (movements : List Movement) (s : SimState) :
    (finishCheck movements s).scrubbing = s.scrubbing := by
  unfold finishCheck
  split <;> rfl

@[simp] theorem finishCheck_scrubbing_direction (movements : List Movement) (s : SimState) :
    (finishCheck movements s).scrubbing_direction = s.scrubbing_direction := by
  unfold finishCheck
  split <;> rfl

@[simp] theorem finishCheck_frame_index (movements : List Movement) (s : SimState) :
    (finishCheck movements s).frame_index = s.frame_index := by
  unfold finishCheck
  split <;> rfl

@[simp] theorem finishCheck_sim_frame_index (movements : List Movement) (s : SimState) :
    (finishCheck movements s).sim_frame_index = s.sim_frame_index := by
  unfold finishCheck
  split <;> rfl

@[simp] theorem finishCheck_sim_frame_index_before_scrub (movements : List Movement) (s : SimState) :
    (finishCheck movements s).sim_frame_index_before_scrub = s.sim_frame_index_before_scrub := by
  unfold finishCheck
  split <;> rfl

@[simp] theorem finishCheck_path (movements : List Movement) (s : SimState) :
    (finishCheck movements s).path = s.path := by
  unfold finishCheck
  split <;> rfl

@[simp] theorem finishCheck_running (movements : List Movement) (s : SimState) :
    (finishCheck movements s).running = s.running := by
  unfold finishCheck
  split <;> rfl

@[simp] theorem recordAndPoint_instruction_markers (s : SimState) :
    (recordAndPoint s).instruction_markers = s.instruction_markers := rfl

@[simp] theorem recordAndPoint_x (s : SimState) :
    (recordAndPoint s).x = s.x := rfl

@[simp] theorem recordAndPoint_y (s : SimState) :
    (recordAndPoint s).y = s.y := rfl

@[simp] theorem recordAndPoint_heading (s : SimState) :
    (recordAndPoint s).heading = s.heading := rfl

@[simp] theorem recordAndPoint_axle_x (s : SimState) :
    (recordAndPoint s).axle_x = s.axle_x := rfl

@[simp] theorem recordAndPoint_axle_y (s : SimState) :
    (recordAndPoint s).axle_y = s.axle_y := rfl

@[simp] theorem recordAndPoint_movement_index (s : SimState) :
    (recordAndPoint s).movement_index = s.movement_index := rfl

@[simp] theorem recordAndPoint_remaining_distance (s : SimState) :
    (recordAndPoint s).remaining_distance = s.remaining_distance := rfl

@[simp] theorem recordAndPoint_active_wheel_command (s : SimState) :
    (recordAndPoint s).active_wheel_command = s.active_wheel_command := rfl

@[simp] theorem recordAndPoint_direction_sign (s : SimState) :
    (recordAndPoint s).direction_sign = s.direction_sign := rfl

@[simp] theorem recordAndPoint_previous_wheel (s : SimState) :
    (recordAndPoint s).previous_wheel = s.previous_wheel := rfl

@[simp] theorem recordAndPoint_paused (s : SimState) :
    (recordAndPoint s).paused = s.paused := rfl

@[simp] theorem recordAndPoint_scrubbing (s : SimState) :
    (recordAndPoint s).scrubbing = s.scrubbing := rfl

@[simp] theorem recordAndPoint_scrubbing_direction (s : SimState) :
    (recordAndPoint s).scrubbing_direction = s.scrubbing_direction := rfl

@[simp] theorem recordAndPoint_sim_frame_index_before_scrub (s : SimState) :
    (recordAndPoint s).sim_frame_index_before_scrub = s.sim_frame_index_before_scrub := rfl

@[simp] theorem recordAndPoint_path (s : SimState) :
    (recordAndPoint s).path = s.path := rfl

@[simp] theorem recordAndPoint_running (s : SimState) :
    (recordAndPoint s).running = s.running := rfl



/-! ### Frame-index safety invariant (claim C8) -/

/-- All stored frame indices are valid positions of the non-empty frame
sequence, and an active scrub direction is `±1`. -/
def IndexInv (s : SimState) : Prop :=
  1 ≤ s.frames.length ∧
  0 ≤ s.frame_index ∧ s.frame_index < (s.frames.length : ℤ) ∧
  0 ≤ s.sim_frame_index ∧ s.sim_frame_index < (s.frames.length : ℤ) ∧
  0 ≤ s.sim_frame_index_before_scrub ∧
  s.sim_frame_index_before_scrub < (s.frames.length : ℤ) ∧
  (s.scrubbing = true → s.scrubbing_direction = 1 ∨ s.scrubbing_direction = -1)

theorem IndexInv_processEvent (s : SimState) (e : Ev) (h : IndexInv s) :
    IndexInv (processEvent s e) := by
  obtain ⟨h1, h2, h3, h4, h5, h6, h7, h8⟩ := h
  cases e
  case quit => exact ⟨h1, h2, h3, h4, h5, h6, h7, h8⟩
  case keyEscape => exact ⟨h1, h2, h3, h4, h5, h6, h7, h8⟩
  case keySpace =>
      show IndexInv (processEvent s Ev.keySpace)
      simp only [processEvent]
      split
      · exact ⟨h1, h6, h7, h6, h7, h6, h7, by simp⟩
      · exact ⟨h1, h2, h3, h4, h5, h4, h5, h8⟩
  case keyZero =>
      obtain ⟨a, b, z, hz⟩ := resetView_shape s
      show IndexInv (resetView s)
      rw [hz]
      exact ⟨h1, h2, h3, h4, h5, h6, h7, h8⟩
  case keyLBracket =>
      show IndexInv (processEvent s Ev.keyLBracket)
      simp only [processEvent]
      split
      · exact ⟨h1, h2, h3, h4, h5, h4, h5, by simp⟩
      · exact ⟨h1, h2, h3, h4, h5, h6, h7, h8⟩
  case keyRBracket =>
      show IndexInv (processEvent s Ev.keyRBracket)
      simp only [processEvent]
      split
      · exact ⟨h1, h2, h3, h4, h5, h4, h5, by simp⟩
      · exact ⟨h1, h2, h3, h4, h5, h6, h7, h8⟩
  case keyBracketUp =>
      exact ⟨h1, h2, h3, h4, h5, h6, h7, by simp [processEvent]⟩

theorem IndexInv_eventsPhase (i : Input) (s : SimState) (h : IndexInv s) :
    IndexInv (eventsPhase i s) := by
  unfold eventsPhase
  generalize i.events = l
  induction l generalizing s with
  | nil => exact h
  | cons e t ih => exact ih (processEvent s e) (IndexInv_processEvent s e h)

theorem IndexInv_panPhase (i : Input) (s : SimState) (h : IndexInv s) :
    IndexInv (panPhase i s) := by
  obtain ⟨a, b, z, hp⟩ := panPhase_shape i s
  rw [hp]
  exact h

theorem IndexInv_scrubPhase (s : SimState) (h : IndexInv s) :
    IndexInv (scrubPhase s) := by
  obtain ⟨h1, h2, h3, h4, h5, h6, h7, h8⟩ := h
  unfold scrubPhase
  split
  · refine ⟨h1, le_max_left 0 _, ?_, h4, h5, h6, h7, h8⟩
    have hL : (0 : ℤ) ≤ (s.frames.length : ℤ) - 1 := by
      have : (1 : ℤ) ≤ (s.frames.length : ℤ) := by exact_mod_cast h1
      linarith
    have hmin : min ((s.frames.length : ℤ) - 1)
        (s.frame_index + s.scrubbing_direction * 1) ≤ (s.frames.length : ℤ) - 1 :=
      min_le_left _ _
    have : max 0 (min ((s.frames.length : ℤ) - 1)
        (s.frame_index + s.scrubbing_direction * 1)) ≤ (s.frames.length : ℤ) - 1 :=
      max_le hL hmin
    linarith
  · exact ⟨h1, h2, h3, h4, h5, h6, h7, h8⟩

theorem recordFrame_frames_length (s : SimState) :
    (recordFrame s).frames.length = s.frames.length + 1 := by
  simp [recordFrame]

theorem simPhase_advancing_stats (p : RobotParameters) (movements : List Movement)
    (display : DisplayOptions) (i : Input) (s : SimState)
    (hadv : s.paused = false ∧ s.scrubbing = false ∧ s.simulation_finished = false) :
    (simPhase p movements display i s).frames.length = s.frames.length + 1 ∧
    (simPhase p movements display i s).frame_index = (s.frames.length : ℤ) ∧
    (simPhase p movements display i s).sim_frame_index = (s.frames.length : ℤ) ∧
    (simPhase p movements display i s).sim_frame_index_before_scrub
      = s.sim_frame_index_before_scrub ∧
    (simPhase p movements display i s).scrubbing = s.scrubbing ∧
    (simPhase p movements display i s).scrubbing_direction = s.scrubbing_direction := by
  unfold simPhase
  rw [if_pos hadv]
  refine ⟨?_, ?_, ?_, ?_, ?_, ?_⟩ <;> simp

theorem IndexInv_simPhase (p : RobotParameters) (movements : List Movement)
    (display : DisplayOptions) (i : Input) (s : SimState) (h : IndexInv s) :
    IndexInv (simPhase p movements display i s) := by
  by_cases hadv : s.paused = false ∧ s.scrubbing = false ∧ s.simulation_finished = false
  · obtain ⟨h1, h2, h3, h4, h5, h6, h7, h8⟩ := h
    obtain ⟨g1, g2, g3, g4, g5, g6⟩ :=
      simPhase_advancing_stats p movements display i s hadv
    refine ⟨?_, ?_, ?_, ?_, ?_, ?_, ?_, ?_⟩
    · omega
    · rw [g2]; positivity
    · rw [g2, g1]; push_cast; linarith
    · rw [g3]; positivity
    · rw [g3, g1]; push_cast; linarith
    · rw [g4]; exact h6
    · rw [g4, g1]; push_cast; linarith
    · rw [g5, g6]; exact h8
  · unfold simPhase
    rw [if_neg hadv]
    exact h

theorem IndexInv_tick (p : RobotParameters) (movements : List Movement)
    (display : DisplayOptions) (i : Input) (s : SimState) (h : IndexInv s) :
    IndexInv (tick p movements display i s) := by
  unfold tick
  split
  · exact IndexInv_simPhase _ _ _ _ _
      (IndexInv_scrubPhase _ (IndexInv_panPhase _ _ (IndexInv_eventsPhase _ _ h)))
  · exact h

theorem IndexInv_startState (p : RobotParameters) (init : InitialConditions) :
    IndexInv (startState p init) := by
  refine ⟨?_, ?_, ?_, ?_, ?_, ?_, ?_, ?_⟩ <;>
    simp [startState, recordFrame]

theorem IndexInv_run (p : RobotParameters) (init : InitialConditions)
    (movements : List Movement) (display : DisplayOptions) (inputs : List Input) :
    IndexInv (run p init movements display inputs) := by
  unfold run
  generalize hs : startState p init = s0
  have h0 : IndexInv s0 := hs ▸ IndexInv_startState p init
  clear hs
  induction inputs generalizing s0 with
  | nil => exact h0
  | cons i t ih => exact ih _ (IndexInv_tick p movements display i s0 h0)

/-! ### Turn-marker bookkeeping (claims C3, C10) -/

/-- The wheel selector of the movement at index `i`, if any. -/
def wheelAt (movements : List Movement) (i : ℕ) : Option Wheel :=
  (movements.get? i).map Movement.wheels

/-- The selector of the command immediately preceding index `i`;
`none` before the first command, matching `previous_wheel = None`. -/
def prevSelector (movements : List Movement) (i : ℕ) : Option Wheel :=
  if i = 0 then none else wheelAt movements (i - 1)

/-- Whether activating command `i` changes the wheel selector. -/
def changedAt (movements : List Movement) (i : ℕ) : Bool :=
  decide (wheelAt movements i ≠ prevSelector movements i)

/-- Number of selector changes among the first `k` command activations. -/
def selectorChanges (movements : List Movement) (k : ℕ) : ℕ :=
  ((List.range k).filter (changedAt movements)).length

theorem selectorChanges_zero (movements : List Movement) :
    selectorChanges movements 0 = 0 := rfl

theorem selectorChanges_succ (movements : List Movement) (k : ℕ) :
    selectorChanges movements (k + 1) =
      selectorChanges movements k + (if changedAt movements k then 1 else 0) := by
  unfold selectorChanges
  rw [List.range_succ, List.filter_append]
  simp only [List.length_append, List.filter]
  split <;> simp_all

/-- Marker bookkeeping invariant: `previous_wheel` tracks the selector of
the last activated command, and with `show_turns` on, the number of
markers equals the number of selector changes so far; with `show_turns`
off, no marker is ever stored and `previous_wheel` stays `None`. -/
def MarkerInv (movements : List Movement) (display : DisplayOptions)
    (s : SimState) : Prop :=
  s.movement_index ≤ movements.length ∧
  (display.show_turns = true →
    s.previous_wheel = prevSelector movements s.movement_index ∧
    s.instruction_markers.length = selectorChanges movements s.movement_index) ∧
  (display.show_turns = false →
    s.instruction_markers = [] ∧ s.previous_wheel = none)

theorem MarkerInv_of_eq {movements : List Movement} {display : DisplayOptions}
    {s t : SimState}
    (hmi : t.movement_index = s.movement_index)
    (hmk : t.instruction_markers = s.instruction_markers)
    (hpw : t.previous_wheel = s.previous_wheel)
    (h : MarkerInv movements display s) : MarkerInv movements display t := by
  unfold MarkerInv at h ⊢
  rw [hmi, hmk, hpw]
  exact h

theorem MarkerInv_activateWith (p : RobotParameters) (movements : List Movement)
    (display : DisplayOptions) (s : SimState) (m : Movement)
    (hget : movements.get? s.movement_index = some m)
    (h : MarkerInv movements display s) :
    MarkerInv movements display (activateWith p display m s) := by
  obtain ⟨hlen, hT, hF⟩ := h
  have hlt : s.movement_index < movements.length := (List.get?_eq_some.mp hget).1
  have hwa : wheelAt movements s.movement_index = some m.wheels := by
    unfold wheelAt
    rw [hget]
    rfl
  have hps : prevSelector movements (s.movement_index + 1) = some m.wheels := by
    simp [prevSelector, hwa]
  refine ⟨?_, ?_, ?_⟩
  · rw [activateWith_movement_index]
    omega
  · intro hst
    obtain ⟨hpw, hmk⟩ := hT hst
    rw [activateWith_movement_index, activateWith_previous_wheel,
      activateWith_instruction_markers, selectorChanges_succ]
    have hchanged : changedAt movements s.movement_index
        = decide (some m.wheels ≠ s.previous_wheel) := by
      rw [changedAt, hwa, hpw]
    by_cases hc : some m.wheels = s.previous_wheel
    · rw [if_neg (by tauto), if_neg (by tauto)]
      constructor
      · rw [← hc, hps]
      · rw [hmk, hchanged, decide_eq_false (by simpa using hc)]
        simp
    · rw [if_pos ⟨hst, hc⟩, if_pos ⟨hst, hc⟩]
      constructor
      · rw [hps]
      · rw [List.length_append, hmk, hchanged, decide_eq_true (by simpa using hc)]
        simp
  · intro hsf
    obtain ⟨hmk, hpw⟩ := hF hsf
    rw [activateWith_previous_wheel, activateWith_instruction_markers,
      if_neg (by rw [hsf]; tauto), if_neg (by rw [hsf]; tauto)]
    exact ⟨hmk, hpw⟩

theorem MarkerInv_activatePhase (p : RobotParameters) (movements : List Movement)
    (display : DisplayOptions) (s : SimState)
    (h : MarkerInv movements display s) :
    MarkerInv movements display (activatePhase p movements display s) := by
  unfold activatePhase
  split
  · cases hget : movements.get? s.movement_index with
    | none => simp only [hget]; exact h
    | some m =>
        simp only [hget]
        exact MarkerInv_activateWith p movements display s m hget h
  · exact h

theorem MarkerInv_simPhase (p : RobotParameters) (movements : List Movement)
    (display : DisplayOptions) (i : Input) (s : SimState)
    (h : MarkerInv movements display s) :
    MarkerInv movements display (simPhase p movements display i s) := by
  unfold simPhase
  split
  · exact MarkerInv_of_eq (by simp) (by simp) (by simp)
      (MarkerInv_activatePhase p movements display s h)
  · exact h

theorem MarkerInv_tick (p : RobotParameters) (movements : List Movement)
    (display : DisplayOptions) (i : Input) (s : SimState)
    (h : MarkerInv movements display s) :
    MarkerInv movements display (tick p movements display i s) := by
  unfold tick
  split
  · exact MarkerInv_simPhase p movements display i _
      (MarkerInv_of_eq (by simp) (by simp) (by simp) h)
  · exact h

theorem MarkerInv_startState (p : RobotParameters) (init : InitialConditions)
    (movements : List Movement) (display : DisplayOptions) :
    MarkerInv movements display (startState p init) := by
  refine ⟨?_, ?_, ?_⟩ <;> simp [startState, recordFrame, prevSelector, selectorChanges_zero]

theorem MarkerInv_run (p : RobotParameters) (init : InitialConditions)
    (movements : List Movement) (display : DisplayOptions) (inputs : List Input) :
    MarkerInv movements display (run p init movements display inputs) := by
  unfold run
  generalize hs : startState p init = s0
  have h0 : MarkerInv movements display s0 :=
    hs ▸ MarkerInv_startState p init movements display
  clear hs
  induction inputs generalizing s0 with
  | nil => exact h0
  | cons i t ih => exact ih _ (MarkerInv_tick p movements display i s0 h0)

/-! ### Helpers for evaluating whole ticks on concrete states -/

theorem scrubPhase_not_scrubbing (s : SimState) (h : s.scrubbing = false) :
    scrubPhase s = s := by
  unfold scrubPhase
  rw [if_neg]
  rintro ⟨h1, _⟩
  rw [h] at h1
  exact absurd h1 (by simp)

theorem tick_nil_advancing (p : RobotParameters) (movements : List Movement)
    (display : DisplayOptions) (s : SimState)
    (hrun : s.running = true) (hp : s.paused = false) (hsc : s.scrubbing = false)
    (hfin : s.simulation_finished = false) :
    tick p movements display nilInput s =
      recordAndPoint (autoScroll nilInput
        (finishCheck movements (stepPhase p (activatePhase p movements display s)))) := by
  unfold tick
  rw [if_pos hrun]
  rw [show eventsPhase nilInput s = s from rfl]
  rw [show panPhase nilInput s = s from rfl]
  rw [scrubPhase_not_scrubbing s hsc]
  unfold simPhase
  rw [if_pos ⟨hp, hsc, hfin⟩]

theorem activatePhase_activates (p : RobotParameters) (movements : List Movement)
    (display : DisplayOptions) (s : SimState) (m : Movement)
    (hrem : s.remaining_distance ≤ 0)
    (hget : movements.get? s.movement_index = some m) :
    activatePhase p movements display s = activateWith p display m s := by
  unfold activatePhase
  rw [if_pos hrem, hget]

theorem activatePhase_queue_empty (p : RobotParameters) (movements : List Movement)
    (display : DisplayOptions) (s : SimState)
    (hrem : s.remaining_distance ≤ 0)
    (hget : movements.get? s.movement_index = none) :
    activatePhase p movements display s = s := by
  unfold activatePhase
  rw [if_pos hrem, hget]

theorem stepPhase_skip (p : RobotParameters) (s : SimState)
    (h : ¬ s.remaining_distance > 0) : stepPhase p s = s := by
  unfold stepPhase
  rw [if_neg h]

theorem stepPhase_go (p : RobotParameters) (s : SimState)
    (h : s.remaining_distance > 0) : stepPhase p s = motionStep p s := by
  unfold stepPhase
  rw [if_pos h]

theorem finishCheck_skip (movements : List Movement) (s : SimState)
    (h : ¬ (movements.length ≤ s.movement_index ∧ s.remaining_distance ≤ 0)) :
    finishCheck movements s = s := by
  unfold finishCheck
  rw [if_neg h]

theorem finishCheck_hit (movements : List Movement) (s : SimState)
    (h : movements.length ≤ s.movement_index ∧ s.remaining_distance ≤ 0) :
    finishCheck movements s = { s with simulation_finished := true } := by
  unfold finishCheck
  rw [if_pos h]

/-! ### Concrete fixtures used by witnesses and counterexamples -/

/-- Geometry with unit wheel diameter, unit track width, unit step size
and axle offset `1`: a pivot step of length `1` turns by `1` radian. -/
def testParams : RobotParameters :=
  { wheel_diameter := 1, robot_width := 1, scale := 1, step_size := 1, axle_offset := 1 }

/-- A mid-command state: heading `0`, axle at the origin, reference point
at `(0, 1)` (satisfying the axle-offset relation), a left-wheel forward
command with `1` unit of distance remaining. -/
def pivotState : SimState :=
  { scroll_x := 0
    scroll_y := 0
    zoom := 1
    instruction_markers := []
    frames := []
    x := 0
    y := 1
    heading := 0
    axle_x := 0
    axle_y := 0
    movement_index := 1
    remaining_distance := 1
    active_wheel_command := some Wheel.left
    direction_sign := 1
    previous_wheel := some Wheel.left
    paused := false
    frame_index := 0
    sim_frame_index := 0
    simulation_finished := false
    scrubbing := false
    scrubbing_direction := 0
    sim_frame_index_before_scrub := 0
    path := []
    running := true }

/-- Initial conditions at the origin facing up. -/
def init0 : InitialConditions := ⟨0, 0, 0⟩

/-- Two zero-rotation commands whose wheel selectors differ. -/
def mvs2 : List Movement :=
  [⟨MoveDir.forward, Wheel.left, 0⟩, ⟨MoveDir.forward, Wheel.right, 0⟩]

/-- Display options with the turn-marker display switched OFF. -/
def noTurns : DisplayOptions :=
  ⟨true, true, true, false, true, true, true⟩

/-- Display options with everything switched on (as in
`run_simulator.py`, plus the grid). -/
def allDisplay : DisplayOptions :=
  ⟨true, true, true, true, true, true, true⟩

/-- Geometry for the C4 witness: unit wheel, step size 4, so one
command of one rotation needs `ceil(pi/4) = 1` step. -/
def paramsW : RobotParameters :=
  { wheel_diameter := 1, robot_width := 1, scale := 1, step_size := 4, axle_offset := 1 }

/-- One forward both-wheels command of one full rotation. -/
def mvsOne : List Movement := [⟨MoveDir.forward, Wheel.both, 1⟩]

/-- A concrete state that is scrubbing forward while paused. -/
def scrubState : SimState :=
  { pivotState with scrubbing := true, scrubbing_direction := 1, paused := true }

/-- A paused mid-run state, used as a concrete non-advancing witness. -/
def pausedState : SimState :=
  { pivotState with paused := true }


/-! ### Frame counting (claim C4) -/

/-- Number of integrator steps one command needs:
the ceiling of `targetDistance / stepSize`, with
`targetDistance = rotations * wheel_circumference`. -/
def stepsFor (p : RobotParameters) (m : Movement) : ℤ :=
  ⌈m.rotations * p.wheel_circumference / p.step_size⌉

/-- Total number of integrator steps a command list needs. -/
def totalSteps (p : RobotParameters) (movements : List Movement) : ℤ :=
  (movements.map (fun m => stepsFor p m)).sum

/-- Integrator steps still to be taken from a given state. -/
def ticksLeft (p : RobotParameters) (movements : List Movement) (s : SimState) : ℤ :=
  ⌈s.remaining_distance / p.step_size⌉ +
    totalSteps p (movements.drop s.movement_index)

/-- States reachable in an uninterrupted live run. -/
def RunGood (movements : List Movement) (s : SimState) : Prop :=
  s.running = true ∧ s.paused = false ∧ s.scrubbing = false ∧
  0 ≤ s.remaining_distance ∧
  s.movement_index ≤ movements.length ∧
  (s.simulation_finished = false →
    0 < s.remaining_distance ∨ s.movement_index < movements.length) ∧
  (s.simulation_finished = true →
    s.remaining_distance ≤ 0 ∧ movements.length ≤ s.movement_index)

theorem wheel_circumference_pos (p : RobotParameters)
    (hd : 0 < p.wheel_diameter) : 0 < p.wheel_circumference :=
  mul_pos Real.pi_pos hd

theorem stepsFor_pos (p : RobotParameters) (m : Movement)
    (hss : 0 < p.step_size) (hd : 0 < p.wheel_diameter)
    (hrot : 0 < m.rotations) : 1 ≤ stepsFor p m := by
  have hq : (0 : ℝ) < m.rotations * p.wheel_circumference / p.step_size :=
    div_pos (mul_pos hrot (wheel_circumference_pos p hd)) hss
  have h0 : (0 : ℤ) < stepsFor p m := Int.lt_ceil.mpr (by exact_mod_cast hq)
  omega

theorem totalSteps_drop_nonneg (p : RobotParameters) (movements : List Movement)
    (hss : 0 < p.step_size) (hd : 0 < p.wheel_diameter)
    (hrot : ∀ m ∈ movements, 0 < m.rotations) (k : ℕ) :
    0 ≤ totalSteps p (movements.drop k) := by
  apply List.sum_nonneg
  intro x hx
  simp only [List.mem_map] at hx
  obtain ⟨m, hm, rfl⟩ := hx
  have hmem : m ∈ movements := List.mem_of_mem_drop hm
  linarith [stepsFor_pos p m hss hd (hrot m hmem)]

theorem ceil_step_count (ss r : ℝ) (hss : 0 < ss) (hr : 0 < r) :
    ⌈(r - min ss r) / ss⌉ = ⌈r / ss⌉ - 1 := by
  rcases le_or_lt r ss with h | h
  · rw [min_eq_right h, sub_self, zero_div, Int.ceil_zero,
      show ⌈r / ss⌉ = 1 from Int.ceil_eq_iff.mpr
        ⟨by push_cast; simpa using div_pos hr hss,
         by push_cast; exact (div_le_one hss).mpr h⟩]
    norm_num
  · rw [min_eq_left h.le, show (r - ss) / ss = r / ss - 1 from by field_simp,
      Int.ceil_sub_one]

theorem finishCheck_fin_iff (movements : List Movement) (s : SimState)
    (h : s.simulation_finished = false) :
    ((finishCheck movements s).simulation_finished = true ↔
      movements.length ≤ s.movement_index ∧ s.remaining_distance ≤ 0) := by
  unfold finishCheck
  split
  case isTrue hc => simpa using hc
  case isFalse hc =>
      constructor
      · intro hh
        rw [h] at hh
        exact absurd hh (by simp)
      · intro hh
        exact absurd hh hc

theorem tick_nil_finished (p : RobotParameters) (movements : List Movement)
    (display : DisplayOptions) (s : SimState)
    (hrun : s.running = true) (hsc : s.scrubbing = false)
    (hfin : s.simulation_finished = true) :
    tick p movements display nilInput s = s := by
  unfold tick
  rw [if_pos hrun, show eventsPhase nilInput s = s from rfl,
    show panPhase nilInput s = s from rfl, scrubPhase_not_scrubbing s hsc]
  exact simPhase_not_advancing _ _ _ _ _ (Or.inr (Or.inr hfin))

theorem ticksLeft_nonneg (p : RobotParameters) (movements : List Movement)
    (s : SimState) (hss : 0 < p.step_size) (hd : 0 < p.wheel_diameter)
    (hrot : ∀ m ∈ movements, 0 < m.rotations)
    (hrem : 0 ≤ s.remaining_distance) :
    0 ≤ ticksLeft p movements s := by
  unfold ticksLeft
  have h1 : (0 : ℤ) ≤ ⌈s.remaining_distance / p.step_size⌉ :=
    Int.ceil_nonneg (div_nonneg hrem hss.le)
  have h2 := totalSteps_drop_nonneg p movements hss hd hrot s.movement_index
  linarith

theorem ticksLeft_zero_of_fin (p : RobotParameters) (movements : List Movement)
    (s : SimState) (hG : RunGood movements s)
    (hfin : s.simulation_finished = true) :
    ticksLeft p movements s = 0 := by
  obtain ⟨_, _, _, hrem0, _, _, hfi⟩ := hG
  obtain ⟨hremle, hlen⟩ := hfi hfin
  have hz : s.remaining_distance = 0 := le_antisymm hremle hrem0
  unfold ticksLeft
  rw [hz, zero_div, Int.ceil_zero, List.drop_eq_nil_of_le hlen]
  simp [totalSteps]

theorem ticksLeft_pos_of_not_fin (p : RobotParameters) (movements : List Movement)
    (s : SimState) (hss : 0 < p.step_size) (hd : 0 < p.wheel_diameter)
    (hrot : ∀ m ∈ movements, 0 < m.rotations)
    (hG : RunGood movements s) (hfin : s.simulation_finished = false) :
    1 ≤ ticksLeft p movements s := by
  obtain ⟨_, _, _, hrem0, _, hnf, _⟩ := hG
  unfold ticksLeft
  rcases hnf hfin with h | h
  · have h1 : (1 : ℤ) ≤ ⌈s.remaining_distance / p.step_size⌉ := by
      have : (0 : ℤ) < ⌈s.remaining_distance / p.step_size⌉ :=
        Int.lt_ceil.mpr (by exact_mod_cast div_pos h hss)
      omega
    have h2 := totalSteps_drop_nonneg p movements hss hd hrot s.movement_index
    linarith
  · have h1 : (0 : ℤ) ≤ ⌈s.remaining_distance / p.step_size⌉ :=
      Int.ceil_nonneg (div_nonneg hrem0 hss.le)
    have hdrop : movements.drop s.movement_index
        = movements.get ⟨s.movement_index, h⟩ :: movements.drop (s.movement_index + 1) :=
      List.drop_eq_getElem_cons h
    have hmem : movements.get ⟨s.movement_index, h⟩ ∈ movements :=
      List.get_mem _ _ _
    have h2 : 1 ≤ stepsFor p (movements.get ⟨s.movement_index, h⟩) :=
      stepsFor_pos p _ hss hd (hrot _ hmem)
    have h3 := totalSteps_drop_nonneg p movements hss hd hrot (s.movement_index + 1)
    have h4 : totalSteps p (movements.drop s.movement_index)
        = stepsFor p (movements.get ⟨s.movement_index, h⟩)
          + totalSteps p (movements.drop (s.movement_index + 1)) := by
      rw [hdrop]
      simp only [totalSteps, List.map_cons, List.sum_cons]
    linarith

theorem run_tick_advances (p : RobotParameters) (movements : List Movement)
    (display : DisplayOptions) (s : SimState)
    (hss : 0 < p.step_size) (hd : 0 < p.wheel_diameter)
    (hrot : ∀ m ∈ movements, 0 < m.rotations)
    (hG : RunGood movements s) (hfin : s.simulation_finished = false) :
    RunGood movements (tick p movements display nilInput s) ∧
    (tick p movements display nilInput s).frames.length = s.frames.length + 1 ∧
    ticksLeft p movements (tick p movements display nilInput s) + 1
      = ticksLeft p movements s := by
  obtain ⟨hrun, hp, hsc, hrem0, hmile, hnf, hfi⟩ := hG
  have htick := tick_nil_advancing p movements display s hrun hp hsc hfin
  by_cases hcase : s.remaining_distance ≤ 0
  · -- a fresh command is activated, then stepped once
    have hmi : s.movement_index < movements.length := by
      rcases hnf hfin with h | h
      · linarith
      · exact h
    have hremz : s.remaining_distance = 0 := le_antisymm hcase hrem0
    have hget : movements.get? s.movement_index
        = some (movements.get ⟨s.movement_index, hmi⟩) := List.get?_eq_get hmi
    set m := movements.get ⟨s.movement_index, hmi⟩ with hm
    have hmem : m ∈ movements := List.get_mem _ _ _
    have hremnew : 0 < m.rotations * p.wheel_circumference :=
      mul_pos (hrot m hmem) (wheel_circumference_pos p hd)
    have ha : activatePhase p movements display s = activateWith p display m s :=
      activatePhase_activates p movements display s m hcase hget
    have hb : stepPhase p (activateWith p display m s)
        = motionStep p (activateWith p display m s) := by
      apply stepPhase_go
      rw [activateWith_remaining_distance]
      exact hremnew
    rw [htick, ha, hb]
    have ht_rem : (motionStep p (activateWith p display m s)).remaining_distance
        = m.rotations * p.wheel_circumference
          - min p.step_size (m.rotations * p.wheel_circumference) := by
      rw [motionStep_remaining_distance, activateWith_remaining_distance]
    have ht_mi : (motionStep p (activateWith p display m s)).movement_index
        = s.movement_index + 1 := by simp
    have ht_fin : (motionStep p (activateWith p display m s)).simulation_finished
        = false := by simp [hfin]
    have hfiniff := finishCheck_fin_iff movements
      (motionStep p (activateWith p display m s)) ht_fin
    have hrem' : 0 ≤ (motionStep p (activateWith p display m s)).remaining_distance := by
      rw [ht_rem]
      have := min_le_right p.step_size (m.rotations * p.wheel_circumference)
      linarith
    refine ⟨⟨by simp [hrun], by simp [hp], by simp [hsc], by simpa using hrem', ?_, ?_, ?_⟩,
      ?_, ?_⟩
    · simpa [ht_mi] using hmi
    · intro hf
      have hnotfin : ¬ (movements.length ≤ s.movement_index + 1 ∧
          (motionStep p (activateWith p display m s)).remaining_distance ≤ 0) := by
        intro hcontra
        have : (finishCheck movements
            (motionStep p (activateWith p display m s))).simulation_finished = true :=
          hfiniff.mpr (by simpa [ht_mi] using hcontra)
        simp only [recordAndPoint_simulation_finished, autoScroll_simulation_finished] at hf
        rw [hf] at this
        exact absurd this (by simp)
      push_neg at hnotfin
      simp only [recordAndPoint_movement_index, autoScroll_movement_index,
        finishCheck_movement_index, recordAndPoint_remaining_distance,
        autoScroll_remaining_distance, finishCheck_remaining_distance, ht_mi]
      rcases lt_or_le movements.length (s.movement_index + 1 + 1) with hlt | hle2
      · left
        have := hnotfin (by omega)
        linarith
      · right
        omega
    · intro hf
      simp only [recordAndPoint_simulation_finished, autoScroll_simulation_finished] at hf
      have := hfiniff.mp hf
      simp only [recordAndPoint_movement_index, autoScroll_movement_index,
        finishCheck_movement_index, recordAndPoint_remaining_distance,
        autoScroll_remaining_distance, finishCheck_remaining_distance, ht_mi]
      refine ⟨this.2, ?_⟩
      rw [ht_mi] at this
      exact this.1
    · simp
    · unfold ticksLeft
      simp only [recordAndPoint_movement_index, autoScroll_movement_index,
        finishCheck_movement_index, recordAndPoint_remaining_distance,
        autoScroll_remaining_distance, finishCheck_remaining_distance, ht_mi, ht_rem]
      have hceil := ceil_step_count p.step_size
        (m.rotations * p.wheel_circumference) hss hremnew
      have hdrop : movements.drop s.movement_index
          = m :: movements.drop (s.movement_index + 1) :=
        List.drop_eq_getElem_cons hmi
      have hsplit : totalSteps p (movements.drop s.movement_index)
          = stepsFor p m + totalSteps p (movements.drop (s.movement_index + 1)) := by
        rw [hdrop]
        simp [totalSteps]
      rw [hceil, hsplit, hremz]
      have : ⌈(0 : ℝ) / p.step_size⌉ = 0 := by rw [zero_div, Int.ceil_zero]
      rw [this]
      unfold stepsFor
      ring
  · -- mid-command: a plain integrator step
    have hrempos : 0 < s.remaining_distance := not_le.mp hcase
    have ha : activatePhase p movements display s = s := by
      unfold activatePhase
      rw [if_neg hcase]
    have hb : stepPhase p s = motionStep p s := stepPhase_go p s hrempos
    rw [htick, ha, hb]
    have ht_rem : (motionStep p s).remaining_distance
        = s.remaining_distance - min p.step_size s.remaining_distance :=
      motionStep_remaining_distance p s
    have ht_fin : (motionStep p s).simulation_finished = false := by simp [hfin]
    have hfiniff := finishCheck_fin_iff movements (motionStep p s) ht_fin
    have hrem' : 0 ≤ (motionStep p s).remaining_distance := by
      rw [ht_rem]
      have := min_le_right p.step_size s.remaining_distance
      linarith
    refine ⟨⟨by simp [hrun], by simp [hp], by simp [hsc], by simpa using hrem', ?_, ?_, ?_⟩,
      ?_, ?_⟩
    · simpa using hmile
    · intro hf
      have hnotfin : ¬ (movements.length ≤ (motionStep p s).movement_index ∧
          (motionStep p s).remaining_distance ≤ 0) := by
        intro hcontra
        have : (finishCheck movements (motionStep p s)).simulation_finished = true :=
          hfiniff.mpr hcontra
        simp only [recordAndPoint_simulation_finished, autoScroll_simulation_finished] at hf
        rw [hf] at this
        exact absurd this (by simp)
      push_neg at hnotfin
      simp only [recordAndPoint_movement_index, autoScroll_movement_index,
        finishCheck_movement_index, recordAndPoint_remaining_distance,
        autoScroll_remaining_distance, finishCheck_remaining_distance,
        motionStep_movement_index]
      rcases lt_or_le s.movement_index movements.length with hlt | hle2
      · right
        exact hlt
      · left
        have := hnotfin (by simpa using hle2)
        linarith
    · intro hf
      simp only [recordAndPoint_simulation_finished, autoScroll_simulation_finished] at hf
      have := hfiniff.mp hf
      simp only [recordAndPoint_movement_index, autoScroll_movement_index,
        finishCheck_movement_index, recordAndPoint_remaining_distance,
        autoScroll_remaining_distance, finishCheck_remaining_distance,
        motionStep_movement_index]
      exact ⟨this.2, by simpa using this.1⟩
    · simp
    · unfold ticksLeft
      simp only [recordAndPoint_movement_index, autoScroll_movement_index,
        finishCheck_movement_index, recordAndPoint_remaining_distance,
        autoScroll_remaining_distance, finishCheck_remaining_distance,
        motionStep_movement_index, ht_rem]
      have hceil := ceil_step_count p.step_size s.remaining_distance hss hrempos
      rw [hceil]
      ring

theorem run_iterate (p : RobotParameters) (movements : List Movement)
    (display : DisplayOptions)
    (hss : 0 < p.step_size) (hd : 0 < p.wheel_diameter)
    (hrot : ∀ m ∈ movements, 0 < m.rotations) :
    ∀ (n : ℕ) (s : SimState), RunGood movements s →
      ticksLeft p movements s ≤ (n : ℤ) →
      (((tick p movements display nilInput)^[n] s).frames.length : ℤ)
          = (s.frames.length : ℤ) + ticksLeft p movements s ∧
      ((tick p movements display nilInput)^[n] s).simulation_finished = true := by
  intro n
  induction n with
  | zero =>
      intro s hG hle
      have hnn := ticksLeft_nonneg p movements s hss hd hrot hG.2.2.2.1
      have h0 : ticksLeft p movements s = 0 := le_antisymm (by exact_mod_cast hle) hnn
      have hfin : s.simulation_finished = true := by
        by_contra hh
        have hff : s.simulation_finished = false := by
          revert hh
          cases s.simulation_finished <;> simp
        have := ticksLeft_pos_of_not_fin p movements s hss hd hrot hG hff
        omega
      exact ⟨by rw [h0]; simp, hfin⟩
  | succ n ih =>
      intro s hG hle
      by_cases hfin : s.simulation_finished = true
      · have hid : tick p movements display nilInput s = s :=
          tick_nil_finished p movements display s hG.1 hG.2.2.1 hfin
        rw [Function.iterate_succ_apply, hid]
        apply ih s hG
        rw [ticksLeft_zero_of_fin p movements s hG hfin]
        positivity
      · have hff : s.simulation_finished = false := by
          revert hfin
          cases s.simulation_finished <;> simp
        obtain ⟨hG', hfr, htl⟩ :=
          run_tick_advances p movements display s hss hd hrot hG hff
        rw [Function.iterate_succ_apply]
        obtain ⟨ih1, ih2⟩ := ih (tick p movements display nilInput s) hG'
          (by push_cast at hle ⊢; omega)
        refine ⟨?_, ih2⟩
        rw [ih1, hfr]
        push_cast
        omega

/-- C4 counterexample: the empty command list (vacuously all rotations
positive) still records a second frame on the tick that detects the
finished condition, so the frame count is 2, not
`1 + sum of ceil(target/step) = 1`. -/
theorem frame_count_empty_counterexample :
    (run testParams init0 [] allDisplay [nilInput]).frames.length = 2 ∧
    (run testParams init0 [] allDisplay [nilInput]).simulation_finished = true ∧
    totalSteps testParams [] = 0 := by
  have hrun : run testParams init0 [] allDisplay [nilInput] =
      tick testParams [] allDisplay nilInput (startState testParams init0) := rfl
  have h1 : tick testParams [] allDisplay nilInput (startState testParams init0) =
      recordAndPoint (autoScroll nilInput (finishCheck [] (stepPhase testParams
        (activatePhase testParams [] allDisplay (startState testParams init0))))) :=
    tick_nil_advancing _ _ _ _ rfl rfl rfl rfl
  have ha : activatePhase testParams [] allDisplay (startState testParams init0) =
      startState testParams init0 :=
    activatePhase_queue_empty _ _ _ _ (le_of_eq rfl) rfl
  have hb : stepPhase testParams (startState testParams init0) =
      startState testParams init0 := by
    apply stepPhase_skip
    norm_num [startState, recordFrame]
  have hc : finishCheck [] (startState testParams init0) =
      { startState testParams init0 with simulation_finished := true } := by
    apply finishCheck_hit
    constructor
    · simp
    · norm_num [startState, recordFrame]
  rw [hrun, h1, ha, hb, hc]
  refine ⟨?_, ?_, rfl⟩
  · simp [startState, recordFrame]
  · simp

/-- C4 (amended): for a NON-EMPTY command list with positive rotation
counts and a valid geometry, once enough ticks have elapsed the run is
finished and the number of recorded frames equals
`1 + sum over commands of ceil(targetDistance / stepSize)`. -/
theorem frame_count_formula (p : RobotParameters) (init : InitialConditions)
    (movements : List Movement) (display : DisplayOptions)
    (hss : 0 < p.step_size) (hd : 0 < p.wheel_diameter)
    (hrot : ∀ m ∈ movements, 0 < m.rotations) (hne : movements ≠ [])
    (n : ℕ) (hn : totalSteps p movements ≤ (n : ℤ)) :
    ((run p init movements display (List.replicate n nilInput)).frames.length : ℤ)
        = 1 + totalSteps p movements ∧
    (run p init movements display (List.replicate n nilInput)).simulation_finished
        = true := by
  have hfoldgen : ∀ (k : ℕ) (t : SimState),
      List.foldl (fun s i => tick p movements display i s) t (List.replicate k nilInput)
        = (tick p movements display nilInput)^[k] t := by
    intro k
    induction k with
    | zero => intro t; rfl
    | succ j ihj =>
        intro t
        rw [List.replicate_succ, List.foldl_cons, Function.iterate_succ_apply]
        exact ihj _
  have hfold : run p init movements display (List.replicate n nilInput)
      = (tick p movements display nilInput)^[n] (startState p init) := by
    unfold run
    exact hfoldgen n (startState p init)
  have hG0 : RunGood movements (startState p init) := by
    refine ⟨rfl, rfl, rfl, le_of_eq rfl.symm, ?_, ?_, ?_⟩
    · simp [startState, recordFrame]
    · intro _
      right
      have : 0 < movements.length := List.length_pos.mpr hne
      simpa [startState, recordFrame] using this
    · intro hcontra
      exact absurd hcontra (by simp [startState, recordFrame])
  have htl0 : ticksLeft p movements (startState p init) = totalSteps p movements := by
    unfold ticksLeft
    rw [show (startState p init).remaining_distance = (0 : ℝ) from rfl,
      show (startState p init).movement_index = 0 from rfl]
    simp
  obtain ⟨h1, h2⟩ := run_iterate p movements display hss hd hrot n
    (startState p init) hG0 (by rw [htl0]; exact hn)
  rw [hfold]
  refine ⟨?_, h2⟩
  rw [h1, htl0, show (startState p init).frames.length = 1 from by
    simp [startState, recordFrame]]
  push_cast
  ring

/-- Witness for C4 (amended) at the one-command run above. -/
theorem frame_count_formula_witness :
    (0 : ℝ) < paramsW.step_size ∧ mvsOne ≠ [] ∧
    ((run paramsW init0 mvsOne allDisplay
        (List.replicate 1 nilInput)).frames.length : ℤ)
      = 1 + totalSteps paramsW mvsOne := by
  have hceil : (⌈Real.pi / 4⌉ : ℤ) = 1 := by
    rw [Int.ceil_eq_iff]
    constructor
    · push_cast
      have := Real.pi_pos
      linarith
    · push_cast
      have := Real.pi_le_four
      linarith
  have ht : totalSteps paramsW mvsOne = 1 := by
    unfold totalSteps stepsFor mvsOne paramsW RobotParameters.wheel_circumference
    simp only [List.map_cons, List.map_nil, List.sum_cons, List.sum_nil]
    rw [show (1 : ℝ) * (Real.pi * 1) / 4 = Real.pi / 4 by ring, hceil]
    ring
  refine ⟨by norm_num [paramsW], by simp [mvsOne], ?_⟩
  exact (frame_count_formula paramsW init0 mvsOne allDisplay
    (by norm_num [paramsW]) (by norm_num [paramsW])
    (by intro m hm; simp [mvsOne] at hm; rw [hm]; norm_num)
    (by simp [mvsOne]) 1 (by rw [ht]; norm_num)).1

/-! ### First-marker invariant (claim C10) -/

/-- Before any activation the pose and marker store are still initial;
after the first activation (with show-turns on) the FIRST stored marker
sits at the initial reference point. -/
def FirstMarkerInv (init : InitialConditions) (display : DisplayOptions)
    (s : SimState) : Prop :=
  (s.movement_index = 0 →
    s.instruction_markers = [] ∧ s.previous_wheel = none ∧
    s.x = init.x ∧ s.y = init.y ∧ s.remaining_distance = 0) ∧
  (display.show_turns = true → 1 ≤ s.movement_index →
    s.instruction_markers.head? = some (init.x, init.y))

theorem FirstMarkerInv_of_eq {init : InitialConditions} {display : DisplayOptions}
    {s t : SimState}
    (hmi : t.movement_index = s.movement_index)
    (hmk : t.instruction_markers = s.instruction_markers)
    (hpw : t.previous_wheel = s.previous_wheel)
    (hx : t.x = s.x) (hy : t.y = s.y)
    (hrem : t.remaining_distance = s.remaining_distance)
    (h : FirstMarkerInv init display s) : FirstMarkerInv init display t := by
  unfold FirstMarkerInv at h ⊢
  rw [hmi, hmk, hpw, hx, hy, hrem]
  exact h

theorem FirstMarkerInv_activatePhase (p : RobotParameters)
    (movements : List Movement) (init : InitialConditions)
    (display : DisplayOptions) (s : SimState)
    (h : FirstMarkerInv init display s) :
    FirstMarkerInv init display (activatePhase p movements display s) := by
  unfold activatePhase
  split
  case isFalse => exact h
  case isTrue hrem =>
    cases hget : movements.get? s.movement_index with
    | none => simp only [hget]; exact h
    | some m =>
        simp only [hget]
        obtain ⟨h0, h1⟩ := h
        constructor
        · intro hmi
          rw [activateWith_movement_index] at hmi
          omega
        · intro hst _
          rw [activateWith_instruction_markers]
          by_cases hmi0 : s.movement_index = 0
          · obtain ⟨hmk, hpw, hx, hy, _⟩ := h0 hmi0
            rw [if_pos ⟨hst, by rw [hpw]; simp⟩, hmk, hx, hy]
            rfl
          · have hh := h1 hst (by omega)
            cases hmkcase : s.instruction_markers with
            | nil => rw [hmkcase] at hh; exact absurd hh (by simp)
            | cons a t =>
                rw [hmkcase] at hh
                split
                · simpa using hh
                · exact hh

theorem FirstMarkerInv_stepPhase (p : RobotParameters) (init : InitialConditions)
    (display : DisplayOptions) (s : SimState)
    (h : FirstMarkerInv init display s) :
    FirstMarkerInv init display (stepPhase p s) := by
  obtain ⟨h0, h1⟩ := h
  constructor
  · intro hmi
    rw [stepPhase_movement_index] at hmi
    obtain ⟨hmk, hpw, hx, hy, hrem⟩ := h0 hmi
    have hskip : stepPhase p s = s := stepPhase_skip p s (by rw [hrem]; norm_num)
    rw [hskip]
    exact h0 hmi
  · intro hst hge
    rw [stepPhase_instruction_markers]
    exact h1 hst (by simpa using hge)

theorem FirstMarkerInv_simPhase (p : RobotParameters) (movements : List Movement)
    (init : InitialConditions) (display : DisplayOptions) (i : Input) (s : SimState)
    (h : FirstMarkerInv init display s) :
    FirstMarkerInv init display (simPhase p movements display i s) := by
  unfold simPhase
  split
  · exact FirstMarkerInv_of_eq (by simp) (by simp) (by simp) (by simp) (by simp) (by simp)
      (FirstMarkerInv_stepPhase p init display _
        (FirstMarkerInv_activatePhase p movements init display s h))
  · exact h

theorem FirstMarkerInv_tick (p : RobotParameters) (movements : List Movement)
    (init : InitialConditions) (display : DisplayOptions) (i : Input) (s : SimState)
    (h : FirstMarkerInv init display s) :
    FirstMarkerInv init display (tick p movements display i s) := by
  unfold tick
  split
  · exact FirstMarkerInv_simPhase p movements init display i _
      (FirstMarkerInv_of_eq (by simp) (by simp) (by simp) (by simp) (by simp) (by simp) h)
  · exact h

theorem FirstMarkerInv_startState (p : RobotParameters) (init : InitialConditions)
    (display : DisplayOptions) :
    FirstMarkerInv init display (startState p init) := by
  constructor
  · intro _
    refine ⟨?_, ?_, ?_, ?_, ?_⟩ <;> simp [startState, recordFrame]
  · intro _ hge
    have : (startState p init).movement_index = 0 := by simp [startState, recordFrame]
    omega

theorem FirstMarkerInv_run (p : RobotParameters) (init : InitialConditions)
    (movements : List Movement) (display : DisplayOptions) (inputs : List Input) :
    FirstMarkerInv init display (run p init movements display inputs) := by
  unfold run
  generalize hs : startState p init = s0
  have h0 : FirstMarkerInv init display s0 :=
    hs ▸ FirstMarkerInv_startState p init display
  clear hs
  induction inputs generalizing s0 with
  | nil => exact h0
  | cons i t ih => exact ih _ (FirstMarkerInv_tick p movements init display i s0 h0)

/-! ### Basic integrator-step lemmas -/

theorem motionStep_active_wheel_command (p : RobotParameters) (s : SimState) :
    (motionStep p s).active_wheel_command = s.active_wheel_command := by
  obtain ⟨a, b, c, d, e, r, q, h⟩ := motionStep_shape p s
  rw [h]

/-- C1: for a left-wheel command the code still rotates the axle about
the LEFT wheel's contact point while increasing the heading, so the
stationary (right) wheel's world position moves: evaluated at
`pivotState` its x-coordinate changes from `1/2` to `cos 1 - 1/2`. -/
theorem left_command_moves_stationary_wheel :
    rightWheelPos testParams (motionStep testParams pivotState) ≠
      rightWheelPos testParams pivotState := by
  intro h
  have hne : Wheel.left ≠ Wheel.both := by decide
  have h1 := congrArg Prod.fst h
  simp only [rightWheelPos, motionStep, testParams, pivotState,
    RobotParameters.half_robot_width] at h1
  norm_num [hne, Real.sin_zero, Real.cos_zero] at h1
  have h2 := Real.cos_one_le
  linarith

/-- C2: the pivot-turn step recomputes the reference point with the
PRE-step heading, so after the step the reference point no longer equals
`axle + axleOffset*(sin h, cos h)` at the new heading: at `pivotState`
the new heading is `1` but `x - axle_x` stays `sin 0 = 0 ≠ sin 1`. -/
theorem pivot_step_breaks_axle_relation :
    (motionStep testParams pivotState).x ≠
      (motionStep testParams pivotState).axle_x +
        testParams.axle_offset * Real.sin (motionStep testParams pivotState).heading := by
  intro h
  have hne : Wheel.left ≠ Wheel.both := by decide
  simp only [motionStep, testParams, pivotState,
    RobotParameters.half_robot_width] at h
  norm_num [hne, Real.sin_zero, Real.cos_zero] at h
  have h2 : 0 < Real.sin 1 :=
    Real.sin_pos_of_pos_of_lt_pi (by norm_num) (by have := Real.pi_gt_three; linarith)
  linarith

/-- C5: when both wheels are driven, one integrator step translates the
reference point and the axle by `(sin h, cos h) * step * sign` with
`step = min(stepSize, remaining)`, leaves the heading unchanged, and
hence iterating the step (a whole command) leaves the heading unchanged. -/
theorem both_step_translates (p : RobotParameters) (s : SimState)
    (hcmd : s.active_wheel_command = some Wheel.both) :
    (motionStep p s).x =
      s.x + Real.sin s.heading * min p.step_size s.remaining_distance * s.direction_sign ∧
    (motionStep p s).y =
      s.y + Real.cos s.heading * min p.step_size s.remaining_distance * s.direction_sign ∧
    (motionStep p s).axle_x =
      s.axle_x + Real.sin s.heading * min p.step_size s.remaining_distance * s.direction_sign ∧
    (motionStep p s).axle_y =
      s.axle_y + Real.cos s.heading * min p.step_size s.remaining_distance * s.direction_sign ∧
    (motionStep p s).heading = s.heading ∧
    (∀ n : ℕ, ((motionStep p)^[n] s).heading = s.heading) := by
  have hstep : ∀ t : SimState, t.active_wheel_command = some Wheel.both →
      (motionStep p t).heading = t.heading := by
    intro t ht
    simp only [motionStep, ht]
    rfl
  refine ⟨?_, ?_, ?_, ?_, hstep s hcmd, ?_⟩
  · simp only [motionStep, hcmd]; rfl
  · simp only [motionStep, hcmd]; rfl
  · simp only [motionStep, hcmd]; rfl
  · simp only [motionStep, hcmd]; rfl
  · intro n
    induction n with
    | zero => rfl
    | succ k ih =>
        rw [Function.iterate_succ_apply']
        have hk : ((motionStep p)^[k] s).active_wheel_command = some Wheel.both := by
          clear ih
          induction k with
          | zero => exact hcmd
          | succ j ihj =>
              rw [Function.iterate_succ_apply', motionStep_active_wheel_command]
              exact ihj
        rw [hstep _ hk, ih]

/-- Witness for C5 at `step = min 1 1`, heading `0`. -/
theorem both_step_translates_witness :
    ({ pivotState with active_wheel_command := some Wheel.both } : SimState).active_wheel_command
        = some Wheel.both ∧
    (motionStep testParams { pivotState with active_wheel_command := some Wheel.both }).heading =
      ({ pivotState with active_wheel_command := some Wheel.both } : SimState).heading :=
  ⟨rfl, (both_step_translates testParams
    { pivotState with active_wheel_command := some Wheel.both } rfl).2.2.2.2.1⟩

/-- C6: every integrator step consumes `step = min(stepSize, remaining)`
and decreases the remaining distance by exactly `step`; the result is
never negative and is exactly zero on a final (partial) step. -/
theorem step_consumes_clamped (p : RobotParameters) (s : SimState)
    (_hpos : 0 < s.remaining_distance) :
    (motionStep p s).remaining_distance =
      s.remaining_distance - min p.step_size s.remaining_distance ∧
    0 ≤ (motionStep p s).remaining_distance ∧
    (s.remaining_distance ≤ p.step_size → (motionStep p s).remaining_distance = 0) := by
  refine ⟨motionStep_remaining_distance p s, ?_, ?_⟩
  · rw [motionStep_remaining_distance]
    have := min_le_right p.step_size s.remaining_distance
    linarith
  · intro hle
    rw [motionStep_remaining_distance, min_eq_right hle, sub_self]

/-- Witness for C6 at remaining distance `1`. -/
theorem step_consumes_clamped_witness :
    (0 : ℝ) < pivotState.remaining_distance ∧
    0 ≤ (motionStep testParams pivotState).remaining_distance :=
  ⟨by norm_num [pivotState],
   (step_consumes_clamped testParams pivotState (by norm_num [pivotState])).2.1⟩

/-- C8: while scrubbing, each tick moves the display index by one step
in the scrub direction clamped to `[0, length - 1]`; for every input
sequence the run keeps a non-empty frame list and a display index in
range, so the frame lookup by display index never goes out of range. -/
theorem scrub_index_always_in_range :
    (∀ (p : RobotParameters) (init : InitialConditions) (movements : List Movement)
        (display : DisplayOptions) (inputs : List Input),
      1 ≤ (run p init movements display inputs).frames.length ∧
      0 ≤ (run p init movements display inputs).frame_index ∧
      (run p init movements display inputs).frame_index <
        ((run p init movements display inputs).frames.length : ℤ)) ∧
    (∀ s : SimState, s.scrubbing = true → s.paused = true ∨ s.simulation_finished = true →
      (scrubPhase s).frame_index =
        max 0 (min ((s.frames.length : ℤ) - 1) (s.frame_index + s.scrubbing_direction * 1)) ∧
      (1 ≤ s.frames.length →
        0 ≤ (scrubPhase s).frame_index ∧
        (scrubPhase s).frame_index < (s.frames.length : ℤ))) := by
  constructor
  · intro p init movements display inputs
    obtain ⟨h1, h2, h3, _⟩ := IndexInv_run p init movements display inputs
    exact ⟨h1, h2, h3⟩
  · intro s hs hpf
    have hcond : s.scrubbing = true ∧ (s.paused = true ∨ s.simulation_finished = true) :=
      ⟨hs, hpf⟩
    constructor
    · unfold scrubPhase
      rw [if_pos hcond]
    · intro hlen
      unfold scrubPhase
      rw [if_pos hcond]
      refine ⟨le_max_left 0 _, ?_⟩
      have hL : (0 : ℤ) ≤ (s.frames.length : ℤ) - 1 := by
        have : (1 : ℤ) ≤ (s.frames.length : ℤ) := by exact_mod_cast hlen
        linarith
      have : max 0 (min ((s.frames.length : ℤ) - 1)
          (s.frame_index + s.scrubbing_direction * 1)) ≤ (s.frames.length : ℤ) - 1 :=
        max_le hL (min_le_left _ _)
      linarith

/-- Witness for C8: a concrete empty-input run and a concrete scrub tick. -/
theorem scrub_index_always_in_range_witness :
    (0 ≤ (run testParams ⟨0, 0, 0⟩ [] allDisplay []).frame_index) ∧
    (scrubPhase scrubState).frame_index =
      max 0 (min ((scrubState.frames.length : ℤ) - 1)
        (scrubState.frame_index + scrubState.scrubbing_direction * 1)) :=
  ⟨(scrub_index_always_in_range.1 testParams ⟨0, 0, 0⟩ [] allDisplay []).2.1,
   (scrub_index_always_in_range.2 scrubState rfl (Or.inl rfl)).1⟩

/-! ### Claim C3: turn markers -/

/-- C3 counterexample: with `show_turns` disabled, both commands of
`mvs2` are activated (movement index reaches 2) and the second one's
selector differs from the first one's, yet no turn marker is appended —
refuting the claim that a marker is appended whenever the newly activated
selector differs from the preceding one, in every run. -/
theorem turn_marker_counterexample :
    (run testParams init0 mvs2 noTurns [nilInput, nilInput]).movement_index = 2 ∧
    wheelAt mvs2 1 ≠ prevSelector mvs2 1 ∧
    (run testParams init0 mvs2 noTurns [nilInput, nilInput]).instruction_markers = [] := by
  have hrun : run testParams init0 mvs2 noTurns [nilInput, nilInput] =
      tick testParams mvs2 noTurns nilInput
        (tick testParams mvs2 noTurns nilInput (startState testParams init0)) := rfl
  have h1 : tick testParams mvs2 noTurns nilInput (startState testParams init0) =
      recordAndPoint (autoScroll nilInput (finishCheck mvs2 (stepPhase testParams
        (activatePhase testParams mvs2 noTurns (startState testParams init0))))) :=
    tick_nil_advancing _ _ _ _ rfl rfl rfl rfl
  have ha1 : activatePhase testParams mvs2 noTurns (startState testParams init0) =
      activateWith testParams noTurns ⟨MoveDir.forward, Wheel.left, 0⟩
        (startState testParams init0) :=
    activatePhase_activates testParams mvs2 noTurns _
      ⟨MoveDir.forward, Wheel.left, 0⟩ (le_of_eq rfl) rfl
  have hb1 : stepPhase testParams (activateWith testParams noTurns
      ⟨MoveDir.forward, Wheel.left, 0⟩ (startState testParams init0)) =
      activateWith testParams noTurns ⟨MoveDir.forward, Wheel.left, 0⟩
        (startState testParams init0) := by
    apply stepPhase_skip
    rw [activateWith_remaining_distance]
    norm_num
  have hc1 : finishCheck mvs2 (activateWith testParams noTurns
      ⟨MoveDir.forward, Wheel.left, 0⟩ (startState testParams init0)) =
      activateWith testParams noTurns ⟨MoveDir.forward, Wheel.left, 0⟩
        (startState testParams init0) := by
    apply finishCheck_skip
    rintro ⟨hl, _⟩
    rw [activateWith_movement_index] at hl
    simp [mvs2, startState, recordFrame] at hl
  have ht1 : tick testParams mvs2 noTurns nilInput (startState testParams init0) =
      recordAndPoint (autoScroll nilInput (activateWith testParams noTurns
        ⟨MoveDir.forward, Wheel.left, 0⟩ (startState testParams init0))) := by
    rw [h1, ha1, hb1, hc1]
  rw [hrun, ht1]
  set T1 := recordAndPoint (autoScroll nilInput (activateWith testParams noTurns
    ⟨MoveDir.forward, Wheel.left, 0⟩ (startState testParams init0))) with hT1
  have f_run : T1.running = true := by rw [hT1]; simp [startState, recordFrame]
  have f_paused : T1.paused = false := by rw [hT1]; simp [startState, recordFrame]
  have f_scrub : T1.scrubbing = false := by rw [hT1]; simp [startState, recordFrame]
  have f_fin : T1.simulation_finished = false := by rw [hT1]; simp [startState, recordFrame]
  have f_rem : T1.remaining_distance = 0 := by rw [hT1]; simp
  have f_mi : T1.movement_index = 1 := by rw [hT1]; simp [startState, recordFrame]
  have f_mk : T1.instruction_markers = [] := by
    rw [hT1]
    simp [activateWith_instruction_markers, noTurns, startState, recordFrame]
  have h2 : tick testParams mvs2 noTurns nilInput T1 =
      recordAndPoint (autoScroll nilInput (finishCheck mvs2 (stepPhase testParams
        (activatePhase testParams mvs2 noTurns T1)))) :=
    tick_nil_advancing _ _ _ _ f_run f_paused f_scrub f_fin
  have ha2 : activatePhase testParams mvs2 noTurns T1 =
      activateWith testParams noTurns ⟨MoveDir.forward, Wheel.right, 0⟩ T1 :=
    activatePhase_activates testParams mvs2 noTurns _
      ⟨MoveDir.forward, Wheel.right, 0⟩ (le_of_eq f_rem) (by rw [f_mi]; rfl)
  have hb2 : stepPhase testParams (activateWith testParams noTurns
      ⟨MoveDir.forward, Wheel.right, 0⟩ T1) =
      activateWith testParams noTurns ⟨MoveDir.forward, Wheel.right, 0⟩ T1 := by
    apply stepPhase_skip
    rw [activateWith_remaining_distance]
    norm_num
  rw [h2, ha2, hb2]
  refine ⟨?_, ?_, ?_⟩
  · simp [f_mi]
  · decide
  · simp [activateWith_instruction_markers, noTurns, f_mk]

/-- C3 (amended): a turn marker is appended at a command activation if
and only if the show-turns display option is enabled AND the new wheel
selector differs from `previous_wheel`; consequently, over any whole
run, with show-turns on the number of stored markers equals the number
of selector changes among the activated commands, and with show-turns
off no marker is ever stored. -/
theorem turn_marker_rule :
    (∀ (p : RobotParameters) (init : InitialConditions) (movements : List Movement)
        (display : DisplayOptions) (inputs : List Input),
      (display.show_turns = true →
        (run p init movements display inputs).instruction_markers.length =
          selectorChanges movements
            (run p init movements display inputs).movement_index) ∧
      (display.show_turns = false →
        (run p init movements display inputs).instruction_markers = [])) ∧
    (∀ (p : RobotParameters) (display : DisplayOptions) (m : Movement) (s : SimState),
      (activateWith p display m s).instruction_markers =
        if display.show_turns = true ∧ some m.wheels ≠ s.previous_wheel
        then s.instruction_markers ++ [(s.x, s.y)]
        else s.instruction_markers) := by
  constructor
  · intro p init movements display inputs
    obtain ⟨_, hT, hF⟩ := MarkerInv_run p init movements display inputs
    exact ⟨fun h => (hT h).2, fun h => (hF h).1⟩
  · intro p display m s
    exact activateWith_instruction_markers p display m s

/-- Witness for C3 (amended): the empty run with markers on, and one
concrete activation. -/
theorem turn_marker_rule_witness :
    (run testParams init0 mvs2 noTurns []).instruction_markers = [] ∧
    (activateWith testParams noTurns ⟨MoveDir.forward, Wheel.left, 0⟩
        pivotState).instruction_markers =
      (if noTurns.show_turns = true ∧
          some (⟨MoveDir.forward, Wheel.left, 0⟩ : Movement).wheels ≠
            pivotState.previous_wheel
       then pivotState.instruction_markers ++ [(pivotState.x, pivotState.y)]
       else pivotState.instruction_markers) :=
  ⟨(turn_marker_rule.1 testParams init0 mvs2 noTurns []).2 rfl,
   turn_marker_rule.2 testParams noTurns ⟨MoveDir.forward, Wheel.left, 0⟩ pivotState⟩

/-! ### Claim C10: the first activation always appends a marker -/

/-- One both-wheels command with zero rotations. -/
def mvsBoth : List Movement := [⟨MoveDir.forward, Wheel.both, 0⟩]

/-- C10: with show-turns enabled, in any run in which at least one
command has been activated, the first stored turn marker sits at the
initial reference-point position — because `previous_wheel` starts as
`None`, which differs from every selector, and no motion can precede
the first activation. -/
theorem first_activation_marks_initial (p : RobotParameters)
    (init : InitialConditions) (movements : List Movement)
    (display : DisplayOptions) (inputs : List Input)
    (hst : display.show_turns = true)
    (hact : 1 ≤ (run p init movements display inputs).movement_index) :
    (run p init movements display inputs).instruction_markers.head? =
      some (init.x, init.y) :=
  (FirstMarkerInv_run p init movements display inputs).2 hst hact

/-- Witness for C10: one tick on a one-command queue. -/
theorem first_activation_marks_initial_witness :
    allDisplay.show_turns = true ∧
    1 ≤ (run testParams init0 mvsBoth allDisplay [nilInput]).movement_index ∧
    (run testParams init0 mvsBoth allDisplay [nilInput]).instruction_markers.head? =
      some (init0.x, init0.y) := by
  have hrun : run testParams init0 mvsBoth allDisplay [nilInput] =
      tick testParams mvsBoth allDisplay nilInput (startState testParams init0) := rfl
  have h1 : tick testParams mvsBoth allDisplay nilInput (startState testParams init0) =
      recordAndPoint (autoScroll nilInput (finishCheck mvsBoth (stepPhase testParams
        (activatePhase testParams mvsBoth allDisplay (startState testParams init0))))) :=
    tick_nil_advancing _ _ _ _ rfl rfl rfl rfl
  have ha : activatePhase testParams mvsBoth allDisplay (startState testParams init0) =
      activateWith testParams allDisplay ⟨MoveDir.forward, Wheel.both, 0⟩
        (startState testParams init0) :=
    activatePhase_activates testParams mvsBoth allDisplay _
      ⟨MoveDir.forward, Wheel.both, 0⟩ (le_of_eq rfl) rfl
  have hmi : 1 ≤ (run testParams init0 mvsBoth allDisplay [nilInput]).movement_index := by
    rw [hrun, h1, ha]
    simp [startState, recordFrame]
  exact ⟨rfl, hmi, first_activation_marks_initial testParams init0 mvsBoth allDisplay
    [nilInput] rfl hmi⟩

/-- C7: a tick whose controller state (after input handling) is paused,
scrubbing or finished appends no frame, leaves every recorded frame
unchanged, and does not invoke the integrator: frames, pose and
command progress are untouched. -/
theorem non_advancing_tick_appends_nothing (p : RobotParameters)
    (movements : List Movement) (display : DisplayOptions) (i : Input) (s : SimState)
    (h : (scrubPhase (panPhase i (eventsPhase i s))).paused = true ∨
         (scrubPhase (panPhase i (eventsPhase i s))).scrubbing = true ∨
         (scrubPhase (panPhase i (eventsPhase i s))).simulation_finished = true) :
    (tick p movements display i s).frames = s.frames ∧
    (tick p movements display i s).x = s.x ∧
    (tick p movements display i s).y = s.y ∧
    (tick p movements display i s).heading = s.heading ∧
    (tick p movements display i s).axle_x = s.axle_x ∧
    (tick p movements display i s).axle_y = s.axle_y ∧
    (tick p movements display i s).remaining_distance = s.remaining_distance ∧
    (tick p movements display i s).movement_index = s.movement_index := by
  unfold tick
  by_cases hr : s.running = true
  · rw [if_pos hr, simPhase_not_advancing _ _ _ _ _ h]
    simp
  · rw [if_neg hr]
    exact ⟨rfl, rfl, rfl, rfl, rfl, rfl, rfl, rfl⟩

/-- Witness for C7: a tick on a concrete paused state. -/
theorem non_advancing_tick_appends_nothing_witness :
    ((scrubPhase (panPhase nilInput (eventsPhase nilInput pausedState))).paused = true ∨
     (scrubPhase (panPhase nilInput (eventsPhase nilInput pausedState))).scrubbing = true ∨
     (scrubPhase (panPhase nilInput (eventsPhase nilInput pausedState))).simulation_finished = true) ∧
    (tick testParams [] allDisplay nilInput pausedState).frames = pausedState.frames :=
  have h : (scrubPhase (panPhase nilInput (eventsPhase nilInput pausedState))).paused = true ∨
      (scrubPhase (panPhase nilInput (eventsPhase nilInput pausedState))).scrubbing = true ∨
      (scrubPhase (panPhase nilInput (eventsPhase nilInput pausedState))).simulation_finished
        = true := by
    left
    simp [eventsPhase, nilInput, pausedState, pivotState]
  ⟨h, (non_advancing_tick_appends_nothing testParams [] allDisplay nilInput pausedState h).1⟩

/-! ### Display/camera non-interference (claim C9) -/

/-- The pose fields of a recorded frame. -/
def poseProj (f : Frame) : ℝ × ℝ × ℝ × ℝ × ℝ :=
  (f.x, f.y, f.heading, f.axle_x, f.axle_y)

/-- The part of the state that drives the simulated trajectory:
everything except the camera (`scroll`, `zoom`), the marker store and
`previous_wheel`, with recorded frames reduced to their pose fields. -/
structure CtrlView where
  x : ℝ
  y : ℝ
  heading : ℝ
  axle_x : ℝ
  axle_y : ℝ
  movement_index : ℕ
  remaining_distance : ℝ
  active_wheel_command : Option Wheel
  direction_sign : ℝ
  paused : Bool
  scrubbing : Bool
  scrubbing_direction : ℤ
  simulation_finished : Bool
  frame_index : ℤ
  sim_frame_index : ℤ
  sim_frame_index_before_scrub : ℤ
  running : Bool
  framePoses : List (ℝ × ℝ × ℝ × ℝ × ℝ)
  path : List (ℝ × ℝ)

/-- Project a simulator state to its trajectory-relevant part. -/
def ctrlView (s : SimState) : CtrlView :=
  { x := s.x
    y := s.y
    heading := s.heading
    axle_x := s.axle_x
    axle_y := s.axle_y
    movement_index := s.movement_index
    remaining_distance := s.remaining_distance
    active_wheel_command := s.active_wheel_command
    direction_sign := s.direction_sign
    paused := s.paused
    scrubbing := s.scrubbing
    scrubbing_direction := s.scrubbing_direction
    simulation_finished := s.simulation_finished
    frame_index := s.frame_index
    sim_frame_index := s.sim_frame_index
    sim_frame_index_before_scrub := s.sim_frame_index_before_scrub
    running := s.running
    framePoses := s.frames.map poseProj
    path := s.path }

theorem ctrlView_eq_iff (s t : SimState) :
    ctrlView s = ctrlView t ↔
      (s.x = t.x ∧ s.y = t.y ∧ s.heading = t.heading ∧ s.axle_x = t.axle_x ∧
       s.axle_y = t.axle_y ∧ s.movement_index = t.movement_index ∧
       s.remaining_distance = t.remaining_distance ∧
       s.active_wheel_command = t.active_wheel_command ∧
       s.direction_sign = t.direction_sign ∧ s.paused = t.paused ∧
       s.scrubbing = t.scrubbing ∧ s.scrubbing_direction = t.scrubbing_direction ∧
       s.simulation_finished = t.simulation_finished ∧
       s.frame_index = t.frame_index ∧ s.sim_frame_index = t.sim_frame_index ∧
       s.sim_frame_index_before_scrub = t.sim_frame_index_before_scrub ∧
       s.running = t.running ∧ s.frames.map poseProj = t.frames.map poseProj ∧
       s.path = t.path) := by
  unfold ctrlView
  simp [CtrlView.mk.injEq]

theorem ctrl_running {s t : SimState} (h : ctrlView s = ctrlView t) :
    s.running = t.running := congrArg CtrlView.running h

theorem ctrl_paused {s t : SimState} (h : ctrlView s = ctrlView t) :
    s.paused = t.paused := congrArg CtrlView.paused h

theorem ctrl_scrubbing {s t : SimState} (h : ctrlView s = ctrlView t) :
    s.scrubbing = t.scrubbing := congrArg CtrlView.scrubbing h

theorem ctrl_fin {s t : SimState} (h : ctrlView s = ctrlView t) :
    s.simulation_finished = t.simulation_finished :=
  congrArg CtrlView.simulation_finished h

theorem ctrl_rem {s t : SimState} (h : ctrlView s = ctrlView t) :
    s.remaining_distance = t.remaining_distance :=
  congrArg CtrlView.remaining_distance h

theorem ctrl_mi {s t : SimState} (h : ctrlView s = ctrlView t) :
    s.movement_index = t.movement_index :=
  congrArg CtrlView.movement_index h

theorem ctrl_framePoses {s t : SimState} (h : ctrlView s = ctrlView t) :
    s.frames.map poseProj = t.frames.map poseProj :=
  congrArg CtrlView.framePoses h

theorem ctrl_frames_length {s t : SimState} (h : ctrlView s = ctrlView t) :
    s.frames.length = t.frames.length := by
  have := congrArg List.length (ctrl_framePoses h)
  simpa using this

theorem panPhase_ctrl_inv (i : Input) (s : SimState) :
    ctrlView (panPhase i s) = ctrlView s := by
  rw [ctrlView_eq_iff]
  refine ⟨?_, ?_, ?_, ?_, ?_, ?_, ?_, ?_, ?_, ?_, ?_, ?_, ?_, ?_, ?_, ?_, ?_, ?_, ?_⟩ <;>
    simp

theorem autoScroll_ctrl_inv (i : Input) (s : SimState) :
    ctrlView (autoScroll i s) = ctrlView s := by
  rw [ctrlView_eq_iff]
  refine ⟨?_, ?_, ?_, ?_, ?_, ?_, ?_, ?_, ?_, ?_, ?_, ?_, ?_, ?_, ?_, ?_, ?_, ?_, ?_⟩ <;>
    simp

theorem resetView_ctrl_inv (s : SimState) :
    ctrlView (resetView s) = ctrlView s := by
  rw [ctrlView_eq_iff]
  refine ⟨?_, ?_, ?_, ?_, ?_, ?_, ?_, ?_, ?_, ?_, ?_, ?_, ?_, ?_, ?_, ?_, ?_, ?_, ?_⟩ <;>
    simp

theorem processEvent_ctrl {s1 s2 : SimState} (e : Ev)
    (h : ctrlView s1 = ctrlView s2) :
    ctrlView (processEvent s1 e) = ctrlView (processEvent s2 e) := by
  rw [ctrlView_eq_iff] at h
  obtain ⟨hx, hy, hhd, hax, hay, hmi, hrem, hact, hsg, hpa, hsc, hsd, hfin, hfi,
    hsi, hbs, hru, hfp, hpath⟩ := h
  rw [ctrlView_eq_iff]
  cases e <;>
    refine ⟨?_, ?_, ?_, ?_, ?_, ?_, ?_, ?_, ?_, ?_, ?_, ?_, ?_, ?_, ?_, ?_, ?_, ?_, ?_⟩ <;>
    simp [processEvent, apply_ite, hx, hy, hhd, hax, hay, hmi, hrem, hact, hsg,
      hpa, hsc, hsd, hfin, hfi, hsi, hbs, hru, hfp, hpath] <;>
    (try (split <;> intro hcc <;> simp_all))

/-- Control events are everything except the reset-view key. -/
def isControl : Ev → Bool
  | Ev.keyZero => false
  | _ => true

theorem processEvent_noncontrol_ctrl (s : SimState) (e : Ev)
    (he : isControl e = false) : ctrlView (processEvent s e) = ctrlView s := by
  cases e <;> simp [isControl] at he ⊢
  exact resetView_ctrl_inv s

theorem foldEvents_ctrl :
    ∀ (l : List Ev) {s1 s2 : SimState}, ctrlView s1 = ctrlView s2 →
      ctrlView (l.foldl processEvent s1) = ctrlView (l.foldl processEvent s2) := by
  intro l
  induction l with
  | nil => intro s1 s2 h; exact h
  | cons e t ih =>
      intro s1 s2 h
      rw [List.foldl_cons, List.foldl_cons]
      exact ih (processEvent_ctrl e h)

theorem foldEvents_filter_ctrl :
    ∀ (l : List Ev) (s : SimState),
      ctrlView (l.foldl processEvent s) =
        ctrlView ((l.filter isControl).foldl processEvent s) := by
  intro l
  induction l with
  | nil => intro s; rfl
  | cons e t ih =>
      intro s
      rw [List.foldl_cons]
      cases hc : isControl e
      · rw [List.filter_cons_of_neg (by simp [hc])]
        calc ctrlView (t.foldl processEvent (processEvent s e))
            = ctrlView ((t.filter isControl).foldl processEvent (processEvent s e)) :=
              ih (processEvent s e)
          _ = ctrlView ((t.filter isControl).foldl processEvent s) :=
              foldEvents_ctrl _ (processEvent_noncontrol_ctrl s e hc)
      · rw [List.filter_cons_of_pos (by simp [hc]), List.foldl_cons]
        exact ih (processEvent s e)

/-- Two per-tick inputs agree on all control events (pause and scrub
keys); the held pan/zoom keys and the reset-view key may differ. -/
def inputControlEq (i1 i2 : Input) : Prop :=
  i1.events.filter isControl = i2.events.filter isControl

theorem eventsPhase_ctrl {i1 i2 : Input} {s1 s2 : SimState}
    (hie : inputControlEq i1 i2) (h : ctrlView s1 = ctrlView s2) :
    ctrlView (eventsPhase i1 s1) = ctrlView (eventsPhase i2 s2) := by
  unfold eventsPhase
  calc ctrlView (i1.events.foldl processEvent s1)
      = ctrlView ((i1.events.filter isControl).foldl processEvent s1) :=
        foldEvents_filter_ctrl _ _
    _ = ctrlView ((i2.events.filter isControl).foldl processEvent s1) := by
        rw [hie]
    _ = ctrlView ((i2.events.filter isControl).foldl processEvent s2) :=
        foldEvents_ctrl _ h
    _ = ctrlView (i2.events.foldl processEvent s2) :=
        (foldEvents_filter_ctrl _ _).symm

theorem scrubPhase_ctrl {s1 s2 : SimState} (h : ctrlView s1 = ctrlView s2) :
    ctrlView (scrubPhase s1) = ctrlView (scrubPhase s2) := by
  have hlen : s1.frames.length = s2.frames.length := ctrl_frames_length h
  have hP := (ctrlView_eq_iff s1 s2).mp h
  obtain ⟨hx, hy, hhd, hax, hay, hmi, hrem, hact, hsg, hpa, hsc, hsd, hfin, hfi,
    hsi, hbs, hru, hfp, hpath⟩ := hP
  unfold scrubPhase
  rw [hsc, hpa, hfin, hlen, hfi, hsd]
  split
  · rw [ctrlView_eq_iff]
    refine ⟨?_, ?_, ?_, ?_, ?_, ?_, ?_, ?_, ?_, ?_, ?_, ?_, ?_, ?_, ?_, ?_, ?_, ?_, ?_⟩ <;>
      simp [hx, hy, hhd, hax, hay, hmi, hrem, hact, hsg, hpa, hsc, hsd, hfin,
        hsi, hbs, hru, hfp, hpath]
  · exact h

theorem activateWith_ctrl (p : RobotParameters) (d1 d2 : DisplayOptions)
    (m : Movement) {s1 s2 : SimState} (h : ctrlView s1 = ctrlView s2) :
    ctrlView (activateWith p d1 m s1) = ctrlView (activateWith p d2 m s2) := by
  have hP := (ctrlView_eq_iff s1 s2).mp h
  obtain ⟨hx, hy, hhd, hax, hay, hmi, hrem, hact, hsg, hpa, hsc, hsd, hfin, hfi,
    hsi, hbs, hru, hfp, hpath⟩ := hP
  rw [ctrlView_eq_iff]
  refine ⟨?_, ?_, ?_, ?_, ?_, ?_, ?_, ?_, ?_, ?_, ?_, ?_, ?_, ?_, ?_, ?_, ?_, ?_, ?_⟩ <;>
    simp [hx, hy, hhd, hax, hay, hmi, hrem, hact, hsg, hpa, hsc, hsd, hfin, hfi,
      hsi, hbs, hru, hfp, hpath]

theorem activatePhase_ctrl (p : RobotParameters) (movements : List Movement)
    (d1 d2 : DisplayOptions) {s1 s2 : SimState} (h : ctrlView s1 = ctrlView s2) :
    ctrlView (activatePhase p movements d1 s1)
      = ctrlView (activatePhase p movements d2 s2) := by
  have hrem := ctrl_rem h
  have hmi := ctrl_mi h
  unfold activatePhase
  rw [hrem, hmi]
  split
  · cases hget : movements.get? s2.movement_index with
    | none => simp only [hget]; exact h
    | some m =>
        simp only [hget]
        exact activateWith_ctrl p d1 d2 m h
  · exact h

theorem motionStep_ctrl (p : RobotParameters) {s1 s2 : SimState}
    (h : ctrlView s1 = ctrlView s2) :
    ctrlView (motionStep p s1) = ctrlView (motionStep p s2) := by
  have hP := (ctrlView_eq_iff s1 s2).mp h
  obtain ⟨hx, hy, hhd, hax, hay, hmi, hrem, hact, hsg, hpa, hsc, hsd, hfin, hfi,
    hsi, hbs, hru, hfp, hpath⟩ := hP
  unfold motionStep
  dsimp only
  rw [hact, hrem, hhd, hsg, hax, hay, hx, hy, hpath]
  by_cases hC : s2.active_wheel_command = some Wheel.both
  · simp only [if_pos hC]
    rw [ctrlView_eq_iff]
    refine ⟨?_, ?_, ?_, ?_, ?_, ?_, ?_, ?_, ?_, ?_, ?_, ?_, ?_, ?_, ?_, ?_, ?_, ?_, ?_⟩ <;>
      simp [hmi, hact, hsg, hpa, hsc, hsd, hfin, hfi, hsi, hbs, hru, hfp]
  · simp only [if_neg hC]
    rw [ctrlView_eq_iff]
    refine ⟨?_, ?_, ?_, ?_, ?_, ?_, ?_, ?_, ?_, ?_, ?_, ?_, ?_, ?_, ?_, ?_, ?_, ?_, ?_⟩ <;>
      simp [hmi, hact, hsg, hpa, hsc, hsd, hfin, hfi, hsi, hbs, hru, hfp]

theorem stepPhase_ctrl (p : RobotParameters) {s1 s2 : SimState}
    (h : ctrlView s1 = ctrlView s2) :
    ctrlView (stepPhase p s1) = ctrlView (stepPhase p s2) := by
  have hrem := ctrl_rem h
  unfold stepPhase
  rw [hrem]
  split
  · exact motionStep_ctrl p h
  · exact h

theorem finishCheck_ctrl (movements : List Movement) {s1 s2 : SimState}
    (h : ctrlView s1 = ctrlView s2) :
    ctrlView (finishCheck movements s1) = ctrlView (finishCheck movements s2) := by
  have hrem := ctrl_rem h
  have hmi := ctrl_mi h
  unfold finishCheck
  rw [hrem, hmi]
  split
  · rw [ctrlView_eq_iff] at h
    obtain ⟨hx, hy, hhd, hax, hay, hmi2, hrem2, hact, hsg, hpa, hsc, hsd, hfin, hfi,
      hsi, hbs, hru, hfp, hpath⟩ := h
    rw [ctrlView_eq_iff]
    refine ⟨?_, ?_, ?_, ?_, ?_, ?_, ?_, ?_, ?_, ?_, ?_, ?_, ?_, ?_, ?_, ?_, ?_, ?_, ?_⟩ <;>
      simp [hx, hy, hhd, hax, hay, hmi2, hrem2, hact, hsg, hpa, hsc, hsd, hfin, hfi,
        hsi, hbs, hru, hfp, hpath]
  · exact h

theorem recordAndPoint_ctrl {s1 s2 : SimState} (h : ctrlView s1 = ctrlView s2) :
    ctrlView (recordAndPoint s1) = ctrlView (recordAndPoint s2) := by
  have hlen : s1.frames.length = s2.frames.length := ctrl_frames_length h
  rw [ctrlView_eq_iff] at h
  obtain ⟨hx, hy, hhd, hax, hay, hmi, hrem, hact, hsg, hpa, hsc, hsd, hfin, hfi,
    hsi, hbs, hru, hfp, hpath⟩ := h
  rw [ctrlView_eq_iff]
  refine ⟨?_, ?_, ?_, ?_, ?_, ?_, ?_, ?_, ?_, ?_, ?_, ?_, ?_, ?_, ?_, ?_, ?_, ?_, ?_⟩ <;>
    simp [recordAndPoint, recordFrame, poseProj, hlen, hx, hy, hhd, hax, hay, hmi,
      hrem, hact, hsg, hpa, hsc, hsd, hfin, hfi, hsi, hbs, hru, hfp, hpath]

theorem simPhase_ctrl (p : RobotParameters) (movements : List Movement)
    (d1 d2 : DisplayOptions) (i1 i2 : Input) {s1 s2 : SimState}
    (h : ctrlView s1 = ctrlView s2) :
    ctrlView (simPhase p movements d1 i1 s1) = ctrlView (simPhase p movements d2 i2 s2) := by
  have hpa := ctrl_paused h
  have hsc := ctrl_scrubbing h
  have hfin := ctrl_fin h
  unfold simPhase
  rw [hpa, hsc, hfin]
  split
  · apply recordAndPoint_ctrl
    calc ctrlView (autoScroll i1 (finishCheck movements (stepPhase p
          (activatePhase p movements d1 s1))))
        = ctrlView (finishCheck movements (stepPhase p
            (activatePhase p movements d1 s1))) := autoScroll_ctrl_inv _ _
      _ = ctrlView (finishCheck movements (stepPhase p
            (activatePhase p movements d2 s2))) :=
          finishCheck_ctrl movements (stepPhase_ctrl p
            (activatePhase_ctrl p movements d1 d2 h))
      _ = ctrlView (autoScroll i2 (finishCheck movements (stepPhase p
            (activatePhase p movements d2 s2)))) := (autoScroll_ctrl_inv _ _).symm
  · exact h

theorem tick_ctrl (p : RobotParameters) (movements : List Movement)
    (d1 d2 : DisplayOptions) {i1 i2 : Input} {s1 s2 : SimState}
    (hie : inputControlEq i1 i2) (h : ctrlView s1 = ctrlView s2) :
    ctrlView (tick p movements d1 i1 s1) = ctrlView (tick p movements d2 i2 s2) := by
  have hru := ctrl_running h
  unfold tick
  rw [hru]
  split
  · apply simPhase_ctrl
    apply scrubPhase_ctrl
    calc ctrlView (panPhase i1 (eventsPhase i1 s1))
        = ctrlView (eventsPhase i1 s1) := panPhase_ctrl_inv _ _
      _ = ctrlView (eventsPhase i2 s2) := eventsPhase_ctrl hie h
      _ = ctrlView (panPhase i2 (eventsPhase i2 s2)) := (panPhase_ctrl_inv _ _).symm
  · exact h

theorem run_ctrl (p : RobotParameters) (init : InitialConditions)
    (movements : List Movement) (d1 d2 : DisplayOptions) :
    ∀ {is1 is2 : List Input}, List.Forall₂ inputControlEq is1 is2 →
      ctrlView (run p init movements d1 is1) = ctrlView (run p init movements d2 is2) := by
  have hgen : ∀ {is1 is2 : List Input}, List.Forall₂ inputControlEq is1 is2 →
      ∀ {s1 s2 : SimState}, ctrlView s1 = ctrlView s2 →
      ctrlView (is1.foldl (fun s i => tick p movements d1 i s) s1)
        = ctrlView (is2.foldl (fun s i => tick p movements d2 i s) s2) := by
    intro is1 is2 hall
    induction hall with
    | nil => intro s1 s2 h; exact h
    | cons hie _ ih =>
        intro s1 s2 h
        rw [List.foldl_cons, List.foldl_cons]
        exact ih (tick_ctrl p movements d1 d2 hie h)
  intro is1 is2 hall
  exact hgen hall rfl

/-- C9: two runs with the same geometry, initial conditions and command
list, but arbitrary (possibly different) display-option flags and
arbitrary camera input (pan/zoom held keys and reset-view presses),
record the same number of frames with identical pose fields
(x, y, heading, axle position) at every index. -/
theorem display_camera_no_interference (p : RobotParameters)
    (init : InitialConditions) (movements : List Movement)
    (d1 d2 : DisplayOptions) (is1 is2 : List Input)
    (hctrl : List.Forall₂ inputControlEq is1 is2) :
    (run p init movements d1 is1).frames.map poseProj
      = (run p init movements d2 is2).frames.map poseProj ∧
    (run p init movements d1 is1).frames.length
      = (run p init movements d2 is2).frames.length := by
  have h := run_ctrl p init movements d1 d2 hctrl
  exact ⟨ctrl_framePoses h, ctrl_frames_length h⟩

/-- An input that holds pan and zoom keys and presses reset-view. -/
def cameraInput : Input :=
  ⟨[Ev.keyZero], true, false, true, false, true, false⟩

/-- Witness for C9: a one-tick run with camera input and all display
options on, against a one-tick run with no input and display options
off. -/
theorem display_camera_no_interference_witness :
    List.Forall₂ inputControlEq [cameraInput] [nilInput] ∧
    (run testParams init0 mvsBoth allDisplay [cameraInput]).frames.map poseProj
      = (run testParams init0 mvsBoth noTurns [nilInput]).frames.map poseProj :=
  have hie : inputControlEq cameraInput nilInput := by
    unfold inputControlEq cameraInput nilInput
    rfl
  ⟨List.Forall₂.cons hie List.Forall₂.nil,
   (display_camera_no_interference testParams init0 mvsBoth allDisplay noTurns
     [cameraInput] [nilInput] (List.Forall₂.cons hie List.Forall₂.nil)).1⟩

end

end DDSim
